import Mathlib

/-!
# crazyflie_controller / acados_estimator.cpp

A shallow embedding of the `ESTIMATOR` class of
`src/crazyflie_controller/src/acados_estimator.cpp`.

Numbers: the C++ `double`/`float` values are modelled by the elements of a
linear ordered field `K` (exact arithmetic, no rounding); theorems that mention
trigonometric functions are stated for `K = ℝ`.  The functions of `<cmath>`
that the source calls (`cos`, `sin`, and the `sqrt` inside Eigen's
`normalize`) are not part of the repository and are passed as a `CMath`
record.  A `std::vector<double>` is a `List K` whose indexed reads and writes
fail (`Except.error`) outside the bounds.
-/

namespace Crazyflie

/-! ## Data model -/

/-- The `<cmath>` functions used by the estimator. -/
structure CMath (K : Type) where
  cos : K → K
  sin : K → K
  sqrt : K → K

/-- The struct `euler` of the class: three angles in radians. -/
structure euler (K : Type) where
  phi : K
  theta : K
  psi : K

/-- Eigen `Quaterniond`, with the coefficients `w()`, `x()`, `y()`, `z()`. -/
structure Quaterniond (K : Type) where
  w : K
  x : K
  y : K
  z : K

/-- Eigen `Vector3d`; the fields are the coefficients `[0]`, `[1]`, `[2]`. -/
structure Vector3d (K : Type) where
  x : K
  y : K
  z : K

section Pure

variable {K : Type} [LinearOrderedField K]

/-- Eigen `Quaterniond::conjugate`: `(w, -x, -y, -z)`. -/
def Quaterniond.conjugate (q : Quaterniond K) : Quaterniond K :=
  { w := q.w, x := -q.x, y := -q.y, z := -q.z }

/-- Eigen `Quaterniond::squaredNorm`. -/
def Quaterniond.squaredNorm (q : Quaterniond K) : K :=
  q.x * q.x + q.y * q.y + q.z * q.z + q.w * q.w

/-- Eigen `Quaterniond::normalize`: every coefficient divided by the norm. -/
def Quaterniond.normalize (m : CMath K) (q : Quaterniond K) : Quaterniond K :=
  let n := m.sqrt q.squaredNorm
  { w := q.w / n, x := q.x / n, y := q.y / n, z := q.z / n }

/-- The macro `pi` of the source, a decimal literal. -/
def pi : K := 3.14159265358979323846

/-- `ESTIMATOR::deg2Rad`. -/
def deg2Rad (deg : K) : K :=
  deg / 180.0 * pi

/-- `ESTIMATOR::rad2Deg`. -/
def rad2Deg (rad : K) : K :=
  rad * 180.0 / pi

/-- `ESTIMATOR::euler2quatern` (lines 327-354). -/
def euler2quatern (m : CMath K) (angle : euler K) : Quaterniond K :=
  let cosPhi := m.cos (angle.phi * 0.5)
  let sinPhi := m.sin (angle.phi * 0.5)
  let cosTheta := m.cos (angle.theta * 0.5)
  let sinTheta := m.sin (angle.theta * 0.5)
  let cosPsi := m.cos (angle.psi * 0.5)
  let sinPsi := m.sin (angle.psi * 0.5)
  let q : Quaterniond K :=
    { w := cosPhi * cosTheta * cosPsi + sinPhi * sinTheta * sinPsi
      x := -(cosPsi * cosTheta * sinPhi - sinPsi * sinTheta * cosPhi)
      y := -(cosPsi * sinTheta * cosPhi + sinPsi * cosTheta * sinPhi)
      z := -(sinPsi * cosTheta * cosPhi - cosPsi * sinTheta * sinPhi) }
  if q.w < 0 then
    { w := -q.w, x := -q.x, y := -q.y, z := -q.z }
  else
    q

/-- `ESTIMATOR::rotateLinearVeloE2B` (lines 414-440): the matrix `Sq` built from
the quaternion, applied to `v_inertial`. -/
def rotateLinearVeloE2B (q : Quaterniond K) (v_inertial : Vector3d K) : Vector3d K :=
  let S11 := 2 * (q.w * q.w + q.x * q.x) - 1
  let S12 := 2 * (q.x * q.y + q.w * q.z)
  let S13 := 2 * (q.x * q.z - q.w * q.y)
  let S21 := 2 * (q.x * q.y - q.w * q.z)
  let S22 := 2 * (q.w * q.w + q.y * q.y) - 1
  let S23 := 2 * (q.y * q.z + q.w * q.x)
  let S31 := 2 * (q.x * q.z + q.w * q.y)
  let S32 := 2 * (q.y * q.z - q.w * q.x)
  let S33 := 2 * (q.w * q.w + q.z * q.z) - 1
  { x := S11 * v_inertial.x + S12 * v_inertial.y + S13 * v_inertial.z
    y := S21 * v_inertial.x + S22 * v_inertial.y + S23 * v_inertial.z
    z := S31 * v_inertial.x + S32 * v_inertial.y + S33 * v_inertial.z }

/-! ### Reference definitions taken from the specification's wording -/

/-- The standard half-angle ZYX euler-to-quaternion value, as the specification
words it (before any sign canonicalisation). -/
def standardZYX (m : CMath K) (angle : euler K) : Quaterniond K :=
  let c1 := m.cos (angle.phi * 0.5)
  let s1 := m.sin (angle.phi * 0.5)
  let c2 := m.cos (angle.theta * 0.5)
  let s2 := m.sin (angle.theta * 0.5)
  let c3 := m.cos (angle.psi * 0.5)
  let s3 := m.sin (angle.psi * 0.5)
  { w := c1 * c2 * c3 + s1 * s2 * s3
    x := s1 * c2 * c3 - c1 * s2 * s3
    y := c1 * s2 * c3 + s1 * c2 * s3
    z := c1 * c2 * s3 - s1 * s2 * c3 }

/-- Sign canonicalisation as the specification words it: all four components
negated when `w` is negative. -/
def canonicalize (q : Quaterniond K) : Quaterniond K :=
  if q.w < 0 then { w := -q.w, x := -q.x, y := -q.y, z := -q.z } else q

/-- The standard rotation matrix `R(q)` of a unit quaternion (body to world). -/
def rotationMatrix (q : Quaterniond K) : Matrix (Fin 3) (Fin 3) K :=
  !![1 - 2 * (q.y * q.y + q.z * q.z), 2 * (q.x * q.y - q.w * q.z), 2 * (q.x * q.z + q.w * q.y);
     2 * (q.x * q.y + q.w * q.z), 1 - 2 * (q.x * q.x + q.z * q.z), 2 * (q.y * q.z - q.w * q.x);
     2 * (q.x * q.z - q.w * q.y), 2 * (q.y * q.z + q.w * q.x), 1 - 2 * (q.x * q.x + q.y * q.y)]

/-- The quaternion of Mathlib with the same coefficients. -/
def Quaterniond.toHamilton (q : Quaterniond K) : Quaternion K :=
  ⟨q.w, q.x, q.y, q.z⟩

/-- The pure quaternion `(0, v)`. -/
def Vector3d.toPure (v : Vector3d K) : Quaternion K :=
  ⟨0, v.x, v.y, v.z⟩

end Pure

/-! ## The estimator object -/

/-- Number of states (macro `NX`). -/
abbrev NX : Nat := 13

/-- Number of control inputs (macro `NU`). -/
abbrev NU : Nat := 4

/-- The enum `systemStates`: slot indices of the state vector. -/
inductive systemStates where
  | xq | yq | zq | qw | qx | qy | qz | vbx | vby | vbz | wx | wy | wz
  deriving DecidableEq, Repr

/-- The integer value of a `systemStates` enumerator, as an index of `x0`/`xn`. -/
def systemStates.idx : systemStates → Fin NX
  | .xq => 0
  | .yq => 1
  | .zq => 2
  | .qw => 3
  | .qx => 4
  | .qy => 5
  | .qz => 6
  | .vbx => 7
  | .vby => 8
  | .vbz => 9
  | .wx => 10
  | .wy => 11
  | .wz => 12

/-- The enum `controlInputs`: slot indices of the control vector. -/
inductive controlInputs where
  | w1 | w2 | w3 | w4
  deriving DecidableEq, Repr

/-- The integer value of a `controlInputs` enumerator. -/
def controlInputs.idx : controlInputs → Fin NU
  | .w1 => 0
  | .w2 => 1
  | .w3 => 2
  | .w4 => 3

/-- The struct `sim_solver_input`. -/
structure sim_solver_input (K : Type) where
  x0 : Fin NX → K
  Td : K
  u0 : Fin NU → K
  u1 : Fin NU → K

/-- The struct `sim_solver_output`. -/
structure sim_solver_output (K : Type) where
  status : K
  cpu_time : K
  xn : Fin NX → K

/-- The type `ros::Time`: whole seconds and nanoseconds. -/
structure Time where
  sec : Nat
  nsec : Nat
  deriving DecidableEq, Repr

/-- The method `ros::Time::isZero`. -/
def Time.isZero (t : Time) : Bool :=
  t.sec == 0 && t.nsec == 0

/-- The type `ros::TimerEvent`, reduced to the two fields the estimator reads. -/
structure TimerEvent where
  last_real : Time
  current_real : Time
  deriving DecidableEq, Repr

/-- The position part of a `geometry_msgs::PoseStamped` message. -/
structure PoseStamped (K : Type) where
  position : Vector3d K

/-- The message `crazyflie_controller::CrazyflieStateStamped`, with the fields that
`predictor` fills. -/
structure CrazyflieStateStamped (K : Type) where
  stamp : Time
  pos : Vector3d K
  vel : Vector3d K
  quat : Quaterniond K
  rates : Vector3d K

/-- The data members of the class `ESTIMATOR` that its methods read or write.  The
publishers and subscribers are part of `World`. -/
structure ESTIMATOR (K : Type) where
  delay : K
  x_samples : List K
  y_samples : List K
  z_samples : List K
  vx_filter_samples : List K
  vy_filter_samples : List K
  vz_filter_samples : List K
  t0 : K
  sim_acados_in : sim_solver_input K
  sim_acados_out : sim_solver_output K
  sim_acados_status : Int
  actual_wx : K
  actual_wy : K
  actual_wz : K
  actual_roll : K
  actual_pitch : K
  actual_yaw : K
  actual_x : K
  actual_y : K
  actual_z : K
  MAX_ORDER : Int
  y : List K
  acados_w1_latest : Int
  acados_w2_latest : Int
  acados_w3_latest : Int
  acados_w4_latest : Int
  acados_w1_prelatest : Int
  acados_w2_prelatest : Int
  acados_w3_prelatest : Int
  acados_w4_prelatest : Int

/-- The acados simulation solver reached through `sim_in_set`,
`crazyflie_acados_sim_solve` and `sim_out_get`.  It is external to the repository:
every call is an arbitrary transformer of the solver's hidden state `σ`. -/
structure SimSolver (σ K : Type) where
  set_T : σ → K → σ
  set_x : σ → (Fin NX → K) → σ
  set_u : σ → (Fin NU → K) → σ
  solve : σ → Int × σ
  get_xn : σ → (Fin NX → K)

/-- The estimator object together with what lies outside it: the hidden state of the
solver and the messages published so far on `p_cf_state` (oldest first). -/
structure World (σ K : Type) where
  est : ESTIMATOR K
  sim : σ
  state_pub : List (CrazyflieStateStamped K)

/-- What one call of `predictor` leaves behind: the world after the call, the value of
the local variable `dt`, and the two actual arguments of its call
`estimateWordLinearVelocities(dt, t0)`. -/
structure predictorResult (σ K : Type) where
  world : World σ K
  dt : K
  arg_dt : K
  arg_delta : K

/-- The ways a call can leave the defined behaviour of the C++ program. -/
inductive Fault where
  | outOfBounds
  deriving DecidableEq, Repr

/-- The message header `std_msgs::Header`. -/
structure Header where
  seq : Nat
  stamp : Time
  frame_id : String
  deriving DecidableEq, Repr

/-- The message `geometry_msgs::Vector3Stamped`. -/
structure Vector3Stamped (K : Type) where
  header : Header
  vector : Vector3d K

/-- The message `crazyflie_controller::EulerAnglesStamped`. -/
structure EulerAnglesStamped (K : Type) where
  header : Header
  roll : K
  pitch : K
  yaw : K

/-- The angular-velocity part of a `sensor_msgs::Imu` message. -/
structure Imu (K : Type) where
  angular_velocity : Vector3d K

/-- The message `crazyflie_controller::PropellerSpeedsStamped`.  Its definition is not
part of the sources, so the type `W` of its four fields is left open. -/
structure PropellerSpeedsStamped (W : Type) where
  w1 : W
  w2 : W
  w3 : W
  w4 : W

/-- A publisher or subscriber set up on the node handle by the constructor. -/
inductive RosSetup where
  | advertise (topic : String) (queue_size : Nat)
  | subscribe (topic : String) (queue_size : Nat)
  deriving DecidableEq, Repr

/-- How a call of the constructor ends: the process exits with a code, the program leaves
defined behaviour, or the object is constructed.  Each case records the publishers and
subscribers set up until then. -/
inductive Constructed (σ K : Type) where
  | exited (code : Int) (setup : List RosSetup)
  | undefined (f : Fault) (setup : List RosSetup)
  | object (est : ESTIMATOR K) (sim : σ) (setup : List RosSetup)

section Stateful

variable {K : Type} [LinearOrderedField K] {σ : Type}

/-- The method `ros::Time::toSec`. -/
def Time.toSec (t : Time) : K :=
  (t.sec : K) + 1e-9 * (t.nsec : K)

/-- Indexed read `v[i]` of a `std::vector<double>`; out of bounds is an error. -/
def vget (v : List K) (i : Nat) : Except Fault K :=
  match v[i]? with
  | some a => .ok a
  | none => .error .outOfBounds

/-- Indexed write `v[i] = a` of a `std::vector<double>`; out of bounds is an error. -/
def vset (v : List K) (i : Nat) (a : K) : Except Fault (List K) :=
  if i < v.length then .ok (v.set i a) else .error .outOfBounds

/-- The call `v.resize(n)` of a `std::vector<double>`: truncates, or appends zeros. -/
def vresize (v : List K) (n : Nat) : List K :=
  v.take n ++ List.replicate (n - v.length) 0

/-- The loop `for (unsigned int i = 0; i <= last; i++) v[i] = 0.0;`. -/
def zeroLoop (v : List K) (last : Nat) : Except Fault (List K) :=
  (List.range (last + 1)).foldlM (fun acc i => vset acc i 0) v

/-- Lines 274-291 of the constructor: the six rings are resized to 5 elements and
zero-filled. -/
def ESTIMATOR.initRings (s : ESTIMATOR K) : Except Fault (ESTIMATOR K) := do
  let mut x_samples := vresize s.x_samples 5
  let mut y_samples := vresize s.y_samples 5
  let mut z_samples := vresize s.z_samples 5
  x_samples ← zeroLoop x_samples 4
  y_samples ← zeroLoop y_samples 4
  z_samples ← zeroLoop z_samples 4
  let mut vx_filter_samples := vresize s.vx_filter_samples 5
  let mut vy_filter_samples := vresize s.vy_filter_samples 5
  let mut vz_filter_samples := vresize s.vz_filter_samples 5
  vx_filter_samples ← zeroLoop vx_filter_samples 4
  vy_filter_samples ← zeroLoop vy_filter_samples 4
  vz_filter_samples ← zeroLoop vz_filter_samples 4
  return { s with
    x_samples := x_samples, y_samples := y_samples, z_samples := z_samples,
    vx_filter_samples := vx_filter_samples, vy_filter_samples := vy_filter_samples,
    vz_filter_samples := vz_filter_samples }

/-- `ESTIMATOR::linearVelocityLPF` (lines 356-368). -/
def linearVelocityLPF (q_samples dq_samples : List K) (Ts elapsed_time : K) :
    Except Fault K := do
  if elapsed_time > 1.0 then
    return 0.3306 * (← vget dq_samples 4) - 0.02732 * (← vget dq_samples 3)
      + 35.7 * (← vget q_samples 4) - 35.7 * (← vget q_samples 3)
  else
    return ((← vget q_samples 4) - (← vget q_samples 3)) / Ts

/-- `ESTIMATOR::estimateWordLinearVelocities` (lines 370-412): returns `vearth` and the
object with its six rings updated. -/
def estimateWordLinearVelocities (s : ESTIMATOR K) (dt delta : K) :
    Except Fault (Vector3d K × ESTIMATOR K) := do
  let mut x_samples := s.x_samples
  let mut y_samples := s.y_samples
  let mut z_samples := s.z_samples
  let mut vx_filter_samples := s.vx_filter_samples
  let mut vy_filter_samples := s.vy_filter_samples
  let mut vz_filter_samples := s.vz_filter_samples
  x_samples ← vset x_samples 0 (← vget x_samples 1)
  x_samples ← vset x_samples 1 (← vget x_samples 2)
  x_samples ← vset x_samples 2 (← vget x_samples 3)
  x_samples ← vset x_samples 3 (← vget x_samples 4)
  x_samples ← vset x_samples 4 s.actual_x
  y_samples ← vset y_samples 0 (← vget y_samples 1)
  y_samples ← vset y_samples 1 (← vget y_samples 2)
  y_samples ← vset y_samples 2 (← vget y_samples 3)
  y_samples ← vset y_samples 3 (← vget y_samples 4)
  y_samples ← vset y_samples 4 s.actual_y
  z_samples ← vset z_samples 0 (← vget z_samples 1)
  z_samples ← vset z_samples 1 (← vget z_samples 2)
  z_samples ← vset z_samples 2 (← vget z_samples 3)
  z_samples ← vset z_samples 3 (← vget z_samples 4)
  z_samples ← vset z_samples 4 s.actual_z
  let vearth0 ← linearVelocityLPF x_samples vx_filter_samples dt delta
  let vearth1 ← linearVelocityLPF y_samples vy_filter_samples dt delta
  let vearth2 ← linearVelocityLPF z_samples vz_filter_samples dt delta
  vx_filter_samples ← vset vx_filter_samples 0 (← vget vx_filter_samples 1)
  vx_filter_samples ← vset vx_filter_samples 1 (← vget vx_filter_samples 2)
  vx_filter_samples ← vset vx_filter_samples 2 (← vget vx_filter_samples 3)
  vx_filter_samples ← vset vx_filter_samples 3 (← vget vx_filter_samples 4)
  vx_filter_samples ← vset vx_filter_samples 4 vearth0
  vy_filter_samples ← vset vy_filter_samples 0 (← vget vy_filter_samples 1)
  vy_filter_samples ← vset vy_filter_samples 1 (← vget vy_filter_samples 2)
  vy_filter_samples ← vset vy_filter_samples 2 (← vget vy_filter_samples 3)
  vy_filter_samples ← vset vy_filter_samples 3 (← vget vy_filter_samples 4)
  vy_filter_samples ← vset vy_filter_samples 4 vearth1
  vz_filter_samples ← vset vz_filter_samples 0 (← vget vz_filter_samples 1)
  vz_filter_samples ← vset vz_filter_samples 1 (← vget vz_filter_samples 2)
  vz_filter_samples ← vset vz_filter_samples 2 (← vget vz_filter_samples 3)
  vz_filter_samples ← vset vz_filter_samples 3 (← vget vz_filter_samples 4)
  vz_filter_samples ← vset vz_filter_samples 4 vearth2
  return (⟨vearth0, vearth1, vearth2⟩,
    { s with
      x_samples := x_samples, y_samples := y_samples, z_samples := z_samples,
      vx_filter_samples := vx_filter_samples, vy_filter_samples := vy_filter_samples,
      vz_filter_samples := vz_filter_samples })

/-- `ESTIMATOR::eRaptorCallback` (lines 483-489). -/
def eRaptorCallback (s : ESTIMATOR K) (msg : PoseStamped K) : ESTIMATOR K :=
  { s with
    actual_x := msg.position.x
    actual_y := msg.position.y
    actual_z := msg.position.z }

/-- `ESTIMATOR::predictor` (lines 521-634); `now` is the value of `ros::Time::now()`. -/
def predictor (m : CMath K) (solver : SimSolver σ K) (w : World σ K) (e : TimerEvent)
    (now : Time) : Except Fault (predictorResult σ K) := do
  let mut s := w.est
  let mut sim := w.sim
  if e.last_real.isZero then
    s := { s with t0 := e.current_real.toSec }
  let dt : K := e.current_real.toSec - e.last_real.toSec
  let mut x0 := s.sim_acados_in.x0
  -- position
  x0 := Function.update x0 systemStates.xq.idx s.actual_x
  x0 := Function.update x0 systemStates.yq.idx s.actual_y
  x0 := Function.update x0 systemStates.zq.idx s.actual_z
  -- quaternion from the euler angles of the onboard stabilizer
  let eu : euler K :=
    { phi := deg2Rad s.actual_roll, theta := deg2Rad s.actual_pitch, psi := deg2Rad s.actual_yaw }
  let q_imu := (euler2quatern m eu).normalize m
  x0 := Function.update x0 systemStates.qw.idx q_imu.w
  x0 := Function.update x0 systemStates.qx.idx q_imu.x
  x0 := Function.update x0 systemStates.qy.idx q_imu.y
  x0 := Function.update x0 systemStates.qz.idx q_imu.z
  -- inertial linear velocities
  let arg_dt := dt
  let arg_delta := s.t0
  let (vi_mat, s1) ← estimateWordLinearVelocities s arg_dt arg_delta
  s := s1
  -- body linear velocities
  let vb_mat := rotateLinearVeloE2B q_imu vi_mat
  x0 := Function.update x0 systemStates.vbx.idx vb_mat.x
  x0 := Function.update x0 systemStates.vby.idx vb_mat.y
  x0 := Function.update x0 systemStates.vbz.idx vb_mat.z
  -- body angular velocities
  x0 := Function.update x0 systemStates.wx.idx s.actual_wx
  x0 := Function.update x0 systemStates.wy.idx s.actual_wy
  x0 := Function.update x0 systemStates.wz.idx s.actual_wz
  -- discretization time and initial state
  sim := solver.set_T sim s.delay
  sim := solver.set_x sim x0
  -- control
  let mut u0 := s.sim_acados_in.u0
  u0 := Function.update u0 controlInputs.w1.idx (s.acados_w1_latest : K)
  u0 := Function.update u0 controlInputs.w2.idx (s.acados_w2_latest : K)
  u0 := Function.update u0 controlInputs.w3.idx (s.acados_w3_latest : K)
  u0 := Function.update u0 controlInputs.w4.idx (s.acados_w4_latest : K)
  sim := solver.set_u sim u0
  -- solve and read the output
  let (status, sim1) := solver.solve sim
  sim := sim1
  let xn := solver.get_xn sim
  s := { s with
    sim_acados_in := { s.sim_acados_in with x0 := x0, u0 := u0 }
    sim_acados_status := status
    sim_acados_out := { s.sim_acados_out with xn := xn, status := (status : K) } }
  -- publish state
  let crazyflie_state : CrazyflieStateStamped K :=
    { stamp := now
      pos := ⟨xn systemStates.xq.idx, xn systemStates.yq.idx, xn systemStates.zq.idx⟩
      vel := ⟨xn systemStates.vbx.idx, xn systemStates.vby.idx, xn systemStates.vbz.idx⟩
      quat := ⟨xn systemStates.qw.idx, xn systemStates.qx.idx, xn systemStates.qy.idx,
        xn systemStates.qz.idx⟩
      rates := ⟨xn systemStates.wx.idx, xn systemStates.wy.idx, xn systemStates.wz.idx⟩ }
  return { world := { est := s, sim := sim, state_pub := w.state_pub ++ [crazyflie_state] }
           dt := dt, arg_dt := arg_dt, arg_delta := arg_delta }

/-- A scenario: for each entry, the position handler `eRaptorCallback` runs with the
given position and then the timer fires `predictor` with the given event.  Returns the
result of every tick, in order. -/
def runTicks (m : CMath K) (solver : SimSolver σ K) :
    World σ K → List (Vector3d K × TimerEvent × Time) →
      Except Fault (List (predictorResult σ K))
  | _, [] => .ok []
  | w, (p, e, now) :: rest => do
    let r ← predictor m solver { w with est := eRaptorCallback w.est ⟨p⟩ } e now
    let rs ← runTicks m solver r.world rest
    return r :: rs

/-- A concrete estimator object for instantiating the theorems: the six rings hold five
zeros, `MAX_ORDER` is 20, every other member is zero or empty. -/
def ESTIMATOR.sample : ESTIMATOR K :=
  { delay := 0
    x_samples := [0, 0, 0, 0, 0], y_samples := [0, 0, 0, 0, 0], z_samples := [0, 0, 0, 0, 0]
    vx_filter_samples := [0, 0, 0, 0, 0], vy_filter_samples := [0, 0, 0, 0, 0]
    vz_filter_samples := [0, 0, 0, 0, 0]
    t0 := 0
    sim_acados_in := { x0 := fun _ => 0, Td := 0, u0 := fun _ => 0, u1 := fun _ => 0 }
    sim_acados_out := { status := 0, cpu_time := 0, xn := fun _ => 0 }
    sim_acados_status := 0
    actual_wx := 0, actual_wy := 0, actual_wz := 0
    actual_roll := 0, actual_pitch := 0, actual_yaw := 0
    actual_x := 0, actual_y := 0, actual_z := 0
    MAX_ORDER := 20
    y := []
    acados_w1_latest := 0, acados_w2_latest := 0, acados_w3_latest := 0, acados_w4_latest := 0
    acados_w1_prelatest := 0, acados_w2_prelatest := 0, acados_w3_prelatest := 0
    acados_w4_prelatest := 0 }

/-- A concrete solver for instantiating the theorems: it has no hidden state, always reports
status 0 and returns the zero vector. -/
def SimSolver.sample : SimSolver Unit K :=
  { set_T := fun _ _ => ()
    set_x := fun _ _ => ()
    set_u := fun _ _ => ()
    solve := fun _ => (0, ())
    get_xn := fun _ _ => 0 }

/-- Indexed write `a[i] = x` of a C array of `n` elements; out of bounds is an error. -/
def aset {n : Nat} (a : Fin n → K) (i : Nat) (x : K) : Except Fault (Fin n → K) :=
  if h : i < n then .ok (Function.update a ⟨i, h⟩ x) else .error .outOfBounds

/-- The loop `for (unsigned int i = 0; i < n; i++) a[i] = 0.0;` over a C array. -/
def arrayZeroLoop {n : Nat} (a : Fin n → K) (bound : Nat) : Except Fault (Fin n → K) :=
  (List.range bound).foldlM (fun acc i => aset acc i 0) a

/-- The object on entry to the constructor body: the default member initialiser sets
`MAX_ORDER = 20` and the seven vectors are empty; the other members keep whatever value
they have. -/
def ESTIMATOR.memberInit (s : ESTIMATOR K) : ESTIMATOR K :=
  { s with
    MAX_ORDER := 20
    x_samples := [], y_samples := [], z_samples := []
    vx_filter_samples := [], vy_filter_samples := [], vz_filter_samples := []
    y := [] }

/-- Lines 266-297 of the constructor: initialisation of `x0`, `u0`, `u1`, the six rings,
the buffer `y` and `t0`.  The body of the loop `for (int i=0; i++; i<NX)` never runs,
because its condition `i++` is 0 on entry. -/
def ESTIMATOR.initBuffers (s : ESTIMATOR K) : Except Fault (ESTIMATOR K) := do
  let mut s := s
  -- initialize sim_acados_in.x0
  let x0 := Function.update s.sim_acados_in.x0 systemStates.qw.idx 1
  -- initialize control inputs
  let u0 ← arrayZeroLoop s.sim_acados_in.u0 NU
  let u1 ← arrayZeroLoop s.sim_acados_in.u1 NU
  s := { s with sim_acados_in := { s.sim_acados_in with x0 := x0, u0 := u0, u1 := u1 } }
  -- the six rings
  s ← s.initRings
  -- the buffer y
  let mut y := vresize s.y s.MAX_ORDER.toNat
  y ← zeroLoop y s.MAX_ORDER.toNat
  -- Set elapsed time to zero initially
  return { s with y := y, t0 := 0 }

/-- The constructor `ESTIMATOR::ESTIMATOR` (lines 233-298).  `crazyflie_acados_sim_create`
is the one-time setup call of the external solver. -/
def ESTIMATOR.ctor (crazyflie_acados_sim_create : σ → Int × σ) (s : ESTIMATOR K) (sim : σ) :
    Constructed σ K :=
  let created := crazyflie_acados_sim_create sim
  let status := created.1
  let sim := created.2
  if status ≠ 0 then
    .exited 1 []
  else
    let setup := [RosSetup.advertise "/cf_estimator/state_estimate" 1,
      RosSetup.advertise "/cf_estimator/euler_angles" 5,
      RosSetup.subscribe "/crazyflie/external_position" 5,
      RosSetup.subscribe "/crazyflie/imu" 5,
      RosSetup.subscribe "/crazyflie/euler_angles" 5,
      RosSetup.subscribe "/crazyflie/acados_motvel" 5]
    match s.memberInit.initBuffers with
    | .error f => .undefined f setup
    | .ok est => .object est sim setup

/-- `ESTIMATOR::motorsCallback` (lines 460-473).  `toInt32` is the conversion of a message
field to the `int32_t` of the cache. -/
def motorsCallback {W : Type} (toInt32 : W → Int) (s : ESTIMATOR K)
    (msg : PropellerSpeedsStamped W) : ESTIMATOR K :=
  let s := { s with
    acados_w1_prelatest := s.acados_w1_latest
    acados_w2_prelatest := s.acados_w2_latest
    acados_w3_prelatest := s.acados_w3_latest
    acados_w4_prelatest := s.acados_w4_latest }
  { s with
    acados_w1_latest := toInt32 msg.w1
    acados_w2_latest := toInt32 msg.w2
    acados_w3_latest := toInt32 msg.w3
    acados_w4_latest := toInt32 msg.w4 }

/-- `ESTIMATOR::eulerCallback` (lines 491-505): returns the object and the message
published on `p_cf_euler`. -/
def eulerCallback (s : ESTIMATOR K) (msg : Vector3Stamped K) :
    ESTIMATOR K × EulerAnglesStamped K :=
  let s := { s with
    actual_roll := msg.vector.x
    actual_pitch := -msg.vector.y
    actual_yaw := msg.vector.z }
  let euler_msg : EulerAnglesStamped K :=
    { header := msg.header
      roll := s.actual_roll
      pitch := s.actual_pitch
      yaw := s.actual_yaw }
  (s, euler_msg)

/-- `ESTIMATOR::imuCallback` (lines 507-513). -/
def imuCallback (s : ESTIMATOR K) (msg : Imu K) : ESTIMATOR K :=
  { s with
    actual_wx := msg.angular_velocity.x
    actual_wy := msg.angular_velocity.y
    actual_wz := msg.angular_velocity.z }

/-- The quaternion `-q`: all four coefficients negated. -/
def Quaterniond.neg (q : Quaterniond K) : Quaterniond K :=
  { w := -q.w, x := -q.x, y := -q.y, z := -q.z }

/-- The coefficients `euler2quatern` computes on lines 341-344, before the sign test of
lines 347-351. -/
def euler2quaternRaw (m : CMath K) (angle : euler K) : Quaterniond K :=
  let cosPhi := m.cos (angle.phi * 0.5)
  let sinPhi := m.sin (angle.phi * 0.5)
  let cosTheta := m.cos (angle.theta * 0.5)
  let sinTheta := m.sin (angle.theta * 0.5)
  let cosPsi := m.cos (angle.psi * 0.5)
  let sinPsi := m.sin (angle.psi * 0.5)
  { w := cosPhi * cosTheta * cosPsi + sinPhi * sinTheta * sinPsi
    x := -(cosPsi * cosTheta * sinPhi - sinPsi * sinTheta * cosPhi)
    y := -(cosPsi * sinTheta * cosPhi + sinPsi * cosTheta * sinPhi)
    z := -(sinPsi * cosTheta * cosPhi - cosPsi * sinTheta * sinPhi) }

end Stateful

/-! ## Theorems -/

section PureTheorems

variable {K : Type} [LinearOrderedField K]

omit [LinearOrderedField K] in
theorem Quaterniond.ext_iff4 (p q : Quaterniond K) :
    p = q ↔ p.w = q.w ∧ p.x = q.x ∧ p.y = q.y ∧ p.z = q.z := by
  cases p; cases q; simp

omit [LinearOrderedField K] in
theorem Vector3d.ext_iff3 (u v : Vector3d K) :
    u = v ↔ u.x = v.x ∧ u.y = v.y ∧ u.z = v.z := by
  cases u; cases v; simp

/-- The coefficients of `euler2quatern` before the sign test have squared norm one
as soon as `cos` and `sin` satisfy the Pythagorean identity. -/
theorem euler2quatern_norm_of_pythagorean (m : CMath K)
    (hm : ∀ t, m.cos t * m.cos t + m.sin t * m.sin t = 1) (angle : euler K) :
    (euler2quatern m angle).w ^ 2 + (euler2quatern m angle).x ^ 2
      + (euler2quatern m angle).y ^ 2 + (euler2quatern m angle).z ^ 2 = 1 := by
  have h1 := hm (angle.phi * 0.5)
  have h2 := hm (angle.theta * 0.5)
  have h3 := hm (angle.psi * 0.5)
  unfold euler2quatern
  simp only
  split_ifs
  all_goals
    simp only
    linear_combination
      ((m.cos (angle.theta * 0.5) * m.cos (angle.theta * 0.5)
          + m.sin (angle.theta * 0.5) * m.sin (angle.theta * 0.5))
        * (m.cos (angle.psi * 0.5) * m.cos (angle.psi * 0.5)
          + m.sin (angle.psi * 0.5) * m.sin (angle.psi * 0.5))) * h1
      + (m.cos (angle.psi * 0.5) * m.cos (angle.psi * 0.5)
          + m.sin (angle.psi * 0.5) * m.sin (angle.psi * 0.5)) * h2
      + h3

theorem euler2quatern_w_nonneg (m : CMath K) (angle : euler K) :
    0 ≤ (euler2quatern m angle).w := by
  unfold euler2quatern
  simp only
  split_ifs with h
  · simp only
    linarith
  · simp only
    exact not_lt.mp h

end PureTheorems

section EstimatorLemmas

variable {K : Type} [LinearOrderedField K] {σ : Type}

omit [LinearOrderedField K] in
theorem list_length_five (l : List K) (h : l.length = 5) :
    ∃ a0 a1 a2 a3 a4, l = [a0, a1, a2, a3, a4] := by
  match l, h with
  | [a0, a1, a2, a3, a4], _ => exact ⟨a0, a1, a2, a3, a4, rfl⟩

/-- The value `linearVelocityLPF` computes from the two newest positions and the two
newest filtered velocities. -/
theorem linearVelocityLPF_five (a0 a1 a2 a3 a4 u0 u1 u2 u3 u4 Ts elapsed_time : K) :
    linearVelocityLPF [a0, a1, a2, a3, a4] [u0, u1, u2, u3, u4] Ts elapsed_time
      = .ok (if elapsed_time > 1.0 then 0.3306 * u4 - 0.02732 * u3 + 35.7 * a4 - 35.7 * a3
          else (a4 - a3) / Ts) := by
  unfold linearVelocityLPF
  split_ifs <;> simp [vget, bind, Except.bind, pure, Except.pure]

theorem estimate_five (s : ESTIMATOR K) (dt delta : K)
    (a0 a1 a2 a3 a4 b0 b1 b2 b3 b4 c0 c1 c2 c3 c4 : K)
    (u0 u1 u2 u3 u4 v0 v1 v2 v3 v4 w0 w1 w2 w3 w4 : K)
    (hx : s.x_samples = [a0, a1, a2, a3, a4])
    (hy : s.y_samples = [b0, b1, b2, b3, b4])
    (hz : s.z_samples = [c0, c1, c2, c3, c4])
    (hvx : s.vx_filter_samples = [u0, u1, u2, u3, u4])
    (hvy : s.vy_filter_samples = [v0, v1, v2, v3, v4])
    (hvz : s.vz_filter_samples = [w0, w1, w2, w3, w4]) :
    estimateWordLinearVelocities s dt delta
      = .ok
        (⟨if delta > 1.0 then 0.3306 * u4 - 0.02732 * u3 + 35.7 * s.actual_x - 35.7 * a4
            else (s.actual_x - a4) / dt,
          if delta > 1.0 then 0.3306 * v4 - 0.02732 * v3 + 35.7 * s.actual_y - 35.7 * b4
            else (s.actual_y - b4) / dt,
          if delta > 1.0 then 0.3306 * w4 - 0.02732 * w3 + 35.7 * s.actual_z - 35.7 * c4
            else (s.actual_z - c4) / dt⟩,
         { s with
           x_samples := [a1, a2, a3, a4, s.actual_x]
           y_samples := [b1, b2, b3, b4, s.actual_y]
           z_samples := [c1, c2, c3, c4, s.actual_z]
           vx_filter_samples := [u1, u2, u3, u4,
             if delta > 1.0 then 0.3306 * u4 - 0.02732 * u3 + 35.7 * s.actual_x - 35.7 * a4
             else (s.actual_x - a4) / dt]
           vy_filter_samples := [v1, v2, v3, v4,
             if delta > 1.0 then 0.3306 * v4 - 0.02732 * v3 + 35.7 * s.actual_y - 35.7 * b4
             else (s.actual_y - b4) / dt]
           vz_filter_samples := [w1, w2, w3, w4,
             if delta > 1.0 then 0.3306 * w4 - 0.02732 * w3 + 35.7 * s.actual_z - 35.7 * c4
             else (s.actual_z - c4) / dt] }) := by
  unfold estimateWordLinearVelocities
  rw [hx, hy, hz, hvx, hvy, hvz]
  simp only [vget, vset, linearVelocityLPF_five, List.getElem?_cons_zero, List.getElem?_cons_succ,
    List.length_cons, List.length_nil, List.set_cons_zero, List.set_cons_succ,
    bind, Except.bind, pure, Except.pure,
    Nat.reduceAdd, Nat.reduceLT, Nat.lt_add_one, if_true, Nat.ofNat_pos, Nat.one_lt_ofNat]

end EstimatorLemmas

section PredictorLemmas

variable {K : Type} [LinearOrderedField K] {σ : Type}

/-- For rings of five slots, `estimateWordLinearVelocities` succeeds, shifts every ring by
one slot and returns the value of `linearVelocityLPF` on each axis. -/
theorem estimate_of_length (s : ESTIMATOR K) (dt delta : K)
    (hx : s.x_samples.length = 5) (hy : s.y_samples.length = 5) (hz : s.z_samples.length = 5)
    (hvx : s.vx_filter_samples.length = 5) (hvy : s.vy_filter_samples.length = 5)
    (hvz : s.vz_filter_samples.length = 5) :
    ∃ v : Vector3d K,
      estimateWordLinearVelocities s dt delta
        = .ok (v, { s with
            x_samples := s.x_samples.drop 1 ++ [s.actual_x]
            y_samples := s.y_samples.drop 1 ++ [s.actual_y]
            z_samples := s.z_samples.drop 1 ++ [s.actual_z]
            vx_filter_samples := s.vx_filter_samples.drop 1 ++ [v.x]
            vy_filter_samples := s.vy_filter_samples.drop 1 ++ [v.y]
            vz_filter_samples := s.vz_filter_samples.drop 1 ++ [v.z] })
      ∧ v.x = (if delta > 1.0 then
            0.3306 * s.vx_filter_samples.getD 4 0 - 0.02732 * s.vx_filter_samples.getD 3 0
              + 35.7 * s.actual_x - 35.7 * s.x_samples.getD 4 0
          else (s.actual_x - s.x_samples.getD 4 0) / dt)
      ∧ v.y = (if delta > 1.0 then
            0.3306 * s.vy_filter_samples.getD 4 0 - 0.02732 * s.vy_filter_samples.getD 3 0
              + 35.7 * s.actual_y - 35.7 * s.y_samples.getD 4 0
          else (s.actual_y - s.y_samples.getD 4 0) / dt)
      ∧ v.z = (if delta > 1.0 then
            0.3306 * s.vz_filter_samples.getD 4 0 - 0.02732 * s.vz_filter_samples.getD 3 0
              + 35.7 * s.actual_z - 35.7 * s.z_samples.getD 4 0
          else (s.actual_z - s.z_samples.getD 4 0) / dt) := by
  obtain ⟨a0, a1, a2, a3, a4, ex⟩ := list_length_five _ hx
  obtain ⟨b0, b1, b2, b3, b4, ey⟩ := list_length_five _ hy
  obtain ⟨c0, c1, c2, c3, c4, ez⟩ := list_length_five _ hz
  obtain ⟨u0, u1, u2, u3, u4, evx⟩ := list_length_five _ hvx
  obtain ⟨v0, v1, v2, v3, v4, evy⟩ := list_length_five _ hvy
  obtain ⟨w0, w1, w2, w3, w4, evz⟩ := list_length_five _ hvz
  refine ⟨⟨if delta > 1.0 then 0.3306 * u4 - 0.02732 * u3 + 35.7 * s.actual_x - 35.7 * a4
            else (s.actual_x - a4) / dt,
          if delta > 1.0 then 0.3306 * v4 - 0.02732 * v3 + 35.7 * s.actual_y - 35.7 * b4
            else (s.actual_y - b4) / dt,
          if delta > 1.0 then 0.3306 * w4 - 0.02732 * w3 + 35.7 * s.actual_z - 35.7 * c4
            else (s.actual_z - c4) / dt⟩, ?_, ?_, ?_, ?_⟩
  · rw [estimate_five s dt delta _ _ _ _ _ _ _ _ _ _ _ _ _ _ _ _ _ _ _ _ _ _ _ _ _ _ _ _ _ _
      ex ey ez evx evy evz, ex, ey, ez, evx, evy, evz]
    rfl
  · simp [ex, evx]
  · simp [ey, evy]
  · simp [ez, evz]

/-- One tick on rings of five slots: `predictor` succeeds; `v` is the value its call of
`estimateWordLinearVelocities` returns, and the object after the tick is described field by
field. -/
theorem predictor_of_length (m : CMath K) (solver : SimSolver σ K) (w : World σ K)
    (e : TimerEvent) (now : Time)
    (hx : w.est.x_samples.length = 5) (hy : w.est.y_samples.length = 5)
    (hz : w.est.z_samples.length = 5)
    (hvx : w.est.vx_filter_samples.length = 5) (hvy : w.est.vy_filter_samples.length = 5)
    (hvz : w.est.vz_filter_samples.length = 5) :
    ∃ (r : predictorResult σ K) (v : Vector3d K),
      predictor m solver w e now = .ok r
      ∧ (∃ s1, estimateWordLinearVelocities
          { w.est with t0 := if e.last_real.isZero then Time.toSec e.current_real else w.est.t0 }
          r.arg_dt r.arg_delta = .ok (v, s1))
      ∧ v.x = (if r.arg_delta > 1.0 then
            0.3306 * w.est.vx_filter_samples.getD 4 0 - 0.02732 * w.est.vx_filter_samples.getD 3 0
              + 35.7 * w.est.actual_x - 35.7 * w.est.x_samples.getD 4 0
          else (w.est.actual_x - w.est.x_samples.getD 4 0) / r.arg_dt)
      ∧ v.y = (if r.arg_delta > 1.0 then
            0.3306 * w.est.vy_filter_samples.getD 4 0 - 0.02732 * w.est.vy_filter_samples.getD 3 0
              + 35.7 * w.est.actual_y - 35.7 * w.est.y_samples.getD 4 0
          else (w.est.actual_y - w.est.y_samples.getD 4 0) / r.arg_dt)
      ∧ v.z = (if r.arg_delta > 1.0 then
            0.3306 * w.est.vz_filter_samples.getD 4 0 - 0.02732 * w.est.vz_filter_samples.getD 3 0
              + 35.7 * w.est.actual_z - 35.7 * w.est.z_samples.getD 4 0
          else (w.est.actual_z - w.est.z_samples.getD 4 0) / r.arg_dt)
      ∧ r.dt = Time.toSec e.current_real - Time.toSec e.last_real
      ∧ r.arg_dt = Time.toSec e.current_real - Time.toSec e.last_real
      ∧ r.arg_delta = (if e.last_real.isZero then Time.toSec e.current_real else w.est.t0)
      ∧ r.world.est.t0 = (if e.last_real.isZero then Time.toSec e.current_real else w.est.t0)
      ∧ r.world.est.x_samples = w.est.x_samples.drop 1 ++ [w.est.actual_x]
      ∧ r.world.est.y_samples = w.est.y_samples.drop 1 ++ [w.est.actual_y]
      ∧ r.world.est.z_samples = w.est.z_samples.drop 1 ++ [w.est.actual_z]
      ∧ r.world.est.vx_filter_samples = w.est.vx_filter_samples.drop 1 ++ [v.x]
      ∧ r.world.est.vy_filter_samples = w.est.vy_filter_samples.drop 1 ++ [v.y]
      ∧ r.world.est.vz_filter_samples = w.est.vz_filter_samples.drop 1 ++ [v.z]
      ∧ (r.world.est.actual_roll = w.est.actual_roll
        ∧ r.world.est.actual_pitch = w.est.actual_pitch
        ∧ r.world.est.actual_yaw = w.est.actual_yaw)
      ∧ r.world.est.sim_acados_in.x0 systemStates.vbx.idx
          = (rotateLinearVeloE2B ((euler2quatern m
              ⟨deg2Rad w.est.actual_roll, deg2Rad w.est.actual_pitch,
                deg2Rad w.est.actual_yaw⟩).normalize m) v).x
      ∧ r.world.est.sim_acados_in.x0 systemStates.vby.idx
          = (rotateLinearVeloE2B ((euler2quatern m
              ⟨deg2Rad w.est.actual_roll, deg2Rad w.est.actual_pitch,
                deg2Rad w.est.actual_yaw⟩).normalize m) v).y
      ∧ r.world.est.sim_acados_in.x0 systemStates.vbz.idx
          = (rotateLinearVeloE2B ((euler2quatern m
              ⟨deg2Rad w.est.actual_roll, deg2Rad w.est.actual_pitch,
                deg2Rad w.est.actual_yaw⟩).normalize m) v).z := by
  obtain ⟨v, hv, f1, f2, f3⟩ := estimate_of_length
    { w.est with t0 := if e.last_real.isZero then Time.toSec e.current_real else w.est.t0 }
    (Time.toSec e.current_real - Time.toSec e.last_real)
    (if e.last_real.isZero then Time.toSec e.current_real else w.est.t0)
    hx hy hz hvx hvy hvz
  cases hp : predictor m solver w e now with
  | error f =>
    exfalso
    unfold predictor at hp
    cases hzero : e.last_real.isZero
    · simp only [hzero, Bool.false_eq_true, if_false] at hv hp
      simp only [hv, bind, Except.bind, pure, Except.pure] at hp
      exact Except.noConfusion hp
    · simp only [hzero, if_true] at hv hp
      simp only [hv, bind, Except.bind, pure, Except.pure] at hp
      exact Except.noConfusion hp
  | ok r =>
    unfold predictor at hp
    cases hzero : e.last_real.isZero
    · simp only [hzero, Bool.false_eq_true, if_false] at hv hp f1 f2 f3 ⊢
      simp only [hv, bind, Except.bind, pure, Except.pure, Except.ok.injEq] at hp
      subst hp
      refine ⟨_, v, rfl, ⟨_, hv⟩, f1, f2, f3, ?_⟩
      simp [systemStates.idx, Function.update]
    · simp only [hzero, if_true] at hv hp f1 f2 f3 ⊢
      simp only [hv, bind, Except.bind, pure, Except.pure, Except.ok.injEq] at hp
      subst hp
      refine ⟨_, v, rfl, ⟨_, hv⟩, f1, f2, f3, ?_⟩
      simp [systemStates.idx, Function.update]

end PredictorLemmas

section ScenarioLemmas

variable {K : Type} [LinearOrderedField K] {σ : Type}

theorem zeroLoop_five (a0 a1 a2 a3 a4 : K) :
    zeroLoop [a0, a1, a2, a3, a4] 4 = .ok [0, 0, 0, 0, 0] := by
  have hr : List.range (4 + 1) = [0, 1, 2, 3, 4] := by decide
  unfold zeroLoop
  rw [hr]
  simp [List.foldlM, vset, bind, Except.bind, pure, Except.pure]

theorem vresize_length (v : List K) (n : Nat) : (vresize v n).length = n := by
  unfold vresize
  simp
  omega

/-- The ring initialisation of the constructor succeeds on every object and leaves five
zeros in each of the six rings. -/
theorem initRings_ok (s : ESTIMATOR K) :
    s.initRings = .ok { s with
      x_samples := [0, 0, 0, 0, 0], y_samples := [0, 0, 0, 0, 0], z_samples := [0, 0, 0, 0, 0]
      vx_filter_samples := [0, 0, 0, 0, 0], vy_filter_samples := [0, 0, 0, 0, 0]
      vz_filter_samples := [0, 0, 0, 0, 0] } := by
  obtain ⟨a0, a1, a2, a3, a4, ex⟩ := list_length_five _ (vresize_length s.x_samples 5)
  obtain ⟨b0, b1, b2, b3, b4, ey⟩ := list_length_five _ (vresize_length s.y_samples 5)
  obtain ⟨c0, c1, c2, c3, c4, ez⟩ := list_length_five _ (vresize_length s.z_samples 5)
  obtain ⟨u0, u1, u2, u3, u4, evx⟩ := list_length_five _ (vresize_length s.vx_filter_samples 5)
  obtain ⟨v0, v1, v2, v3, v4, evy⟩ := list_length_five _ (vresize_length s.vy_filter_samples 5)
  obtain ⟨w0, w1, w2, w3, w4, evz⟩ := list_length_five _ (vresize_length s.vz_filter_samples 5)
  unfold ESTIMATOR.initRings
  simp only [ex, ey, ez, evx, evy, evz, zeroLoop_five, bind, Except.bind, pure, Except.pure]

/-- With the real `cos`, `sin` and `sqrt`, zero roll, pitch and yaw give the identity
quaternion after normalisation. -/
theorem attitude_zero :
    (euler2quatern ⟨Real.cos, Real.sin, Real.sqrt⟩
        ⟨deg2Rad (0 : ℝ), deg2Rad (0 : ℝ), deg2Rad (0 : ℝ)⟩).normalize
      ⟨Real.cos, Real.sin, Real.sqrt⟩ = ⟨1, 0, 0, 0⟩ := by
  have h : euler2quatern ⟨Real.cos, Real.sin, Real.sqrt⟩
      ⟨deg2Rad (0 : ℝ), deg2Rad (0 : ℝ), deg2Rad (0 : ℝ)⟩ = ⟨1, 0, 0, 0⟩ := by
    have hneg : ¬ ((1 : ℝ) < 0) := by norm_num
    simp [euler2quatern, deg2Rad, hneg]
  rw [h]
  simp [Quaterniond.normalize, Quaterniond.squaredNorm]

theorem rotate_one (v : Vector3d K) : rotateLinearVeloE2B ⟨1, 0, 0, 0⟩ v = v := by
  obtain ⟨a, b, c⟩ := v
  rw [Vector3d.ext_iff3]
  simp only [rotateLinearVeloE2B]
  refine ⟨?_, ?_, ?_⟩ <;> ring

end ScenarioLemmas

section RealScenario

variable {σ : Type}

/-- One position message followed by one tick, with the real `cos`, `sin`, `sqrt`, rings of
five slots and zero roll, pitch and yaw. -/
theorem tick_level_attitude (solver : SimSolver σ ℝ) (w : World σ ℝ) (p : Vector3d ℝ)
    (e : TimerEvent) (now : Time) (a0 a1 a2 a3 a4 b0 b1 b2 b3 b4 c0 c1 c2 c3 c4 : ℝ)
    (hx : w.est.x_samples = [a0, a1, a2, a3, a4])
    (hy : w.est.y_samples = [b0, b1, b2, b3, b4])
    (hz : w.est.z_samples = [c0, c1, c2, c3, c4])
    (hvx : w.est.vx_filter_samples.length = 5) (hvy : w.est.vy_filter_samples.length = 5)
    (hvz : w.est.vz_filter_samples.length = 5)
    (hroll : w.est.actual_roll = 0) (hpitch : w.est.actual_pitch = 0)
    (hyaw : w.est.actual_yaw = 0) :
    ∃ r : predictorResult σ ℝ,
      predictor ⟨Real.cos, Real.sin, Real.sqrt⟩ solver
          { w with est := eRaptorCallback w.est ⟨p⟩ } e now = .ok r
      ∧ r.world.est.x_samples = [a1, a2, a3, a4, p.x]
      ∧ r.world.est.y_samples = [b1, b2, b3, b4, p.y]
      ∧ r.world.est.z_samples = [c1, c2, c3, c4, p.z]
      ∧ r.world.est.vx_filter_samples.length = 5
      ∧ r.world.est.vy_filter_samples.length = 5
      ∧ r.world.est.vz_filter_samples.length = 5
      ∧ r.world.est.actual_roll = 0 ∧ r.world.est.actual_pitch = 0
      ∧ r.world.est.actual_yaw = 0
      ∧ r.world.est.t0 = (if e.last_real.isZero then Time.toSec e.current_real else w.est.t0)
      ∧ r.arg_delta = (if e.last_real.isZero then Time.toSec e.current_real else w.est.t0)
      ∧ r.arg_dt = Time.toSec e.current_real - Time.toSec e.last_real
      ∧ (r.arg_delta ≤ 1.0 →
          r.world.est.sim_acados_in.x0 systemStates.vbx.idx = (p.x - a4) / r.arg_dt
          ∧ r.world.est.sim_acados_in.x0 systemStates.vby.idx = (p.y - b4) / r.arg_dt
          ∧ r.world.est.sim_acados_in.x0 systemStates.vbz.idx = (p.z - c4) / r.arg_dt) := by
  obtain ⟨r, v, hr, -, f1, f2, f3, -, hadt, hdelta, ht0, gx, gy, gz, gvx, gvy, gvz,
      ⟨groll, gpitch, gyaw⟩, kx, ky, kz⟩ :=
    predictor_of_length ⟨Real.cos, Real.sin, Real.sqrt⟩ solver
      { w with est := eRaptorCallback w.est ⟨p⟩ } e now
      (by simp [eRaptorCallback, hx]) (by simp [eRaptorCallback, hy])
      (by simp [eRaptorCallback, hz]) (by simpa [eRaptorCallback] using hvx)
      (by simpa [eRaptorCallback] using hvy) (by simpa [eRaptorCallback] using hvz)
  dsimp only [eRaptorCallback] at f1 f2 f3 hdelta ht0 gx gy gz gvx gvy gvz
  dsimp only [eRaptorCallback] at groll gpitch gyaw kx ky kz
  rw [hx] at f1 gx
  rw [hy] at f2 gy
  rw [hz] at f3 gz
  rw [hroll] at groll
  rw [hpitch] at gpitch
  rw [hyaw] at gyaw
  rw [hroll, hpitch, hyaw] at kx ky kz
  rw [attitude_zero, rotate_one] at kx ky kz
  refine ⟨r, hr, ?_, ?_, ?_, ?_, ?_, ?_, groll, gpitch, gyaw, ht0, hdelta, hadt, ?_⟩
  · simpa using gx
  · simpa using gy
  · simpa using gz
  · rw [gvx]; simp [hvx]
  · rw [gvy]; simp [hvy]
  · rw [gvz]; simp [hvz]
  · intro hle
    have hnot : ¬ r.arg_delta > 1.0 := not_lt.mpr hle
    rw [if_neg hnot] at f1 f2 f3
    rw [kx, ky, kz, f1, f2, f3]
    simp

end RealScenario

section FrameLemmas

variable {K : Type} [LinearOrderedField K] {σ : Type}

/-- One tick on rings of five slots, field by field: the thirteen slots of `x0`, the four
slots of `u0`, the latest-value caches, the solver calls and the published record.  `v` is
the value returned by the tick's call of `estimateWordLinearVelocities`. -/
theorem predictor_frame_of_length (m : CMath K) (solver : SimSolver σ K) (w : World σ K)
    (e : TimerEvent) (now : Time)
    (hx : w.est.x_samples.length = 5) (hy : w.est.y_samples.length = 5)
    (hz : w.est.z_samples.length = 5)
    (hvx : w.est.vx_filter_samples.length = 5) (hvy : w.est.vy_filter_samples.length = 5)
    (hvz : w.est.vz_filter_samples.length = 5) :
    ∃ (r : predictorResult σ K) (v : Vector3d K),
      predictor m solver w e now = .ok r
      ∧ (∃ s1, estimateWordLinearVelocities
          { w.est with t0 := if e.last_real.isZero then Time.toSec e.current_real else w.est.t0 }
          r.arg_dt r.arg_delta = .ok (v, s1))
      ∧ (r.world.est.sim_acados_in.x0 systemStates.xq.idx = w.est.actual_x
        ∧ r.world.est.sim_acados_in.x0 systemStates.yq.idx = w.est.actual_y
        ∧ r.world.est.sim_acados_in.x0 systemStates.zq.idx = w.est.actual_z)
      ∧ (r.world.est.sim_acados_in.x0 systemStates.qw.idx
          = ((euler2quatern m ⟨deg2Rad w.est.actual_roll, deg2Rad w.est.actual_pitch,
                deg2Rad w.est.actual_yaw⟩).normalize m).w
        ∧ r.world.est.sim_acados_in.x0 systemStates.qx.idx
          = ((euler2quatern m ⟨deg2Rad w.est.actual_roll, deg2Rad w.est.actual_pitch,
                deg2Rad w.est.actual_yaw⟩).normalize m).x
        ∧ r.world.est.sim_acados_in.x0 systemStates.qy.idx
          = ((euler2quatern m ⟨deg2Rad w.est.actual_roll, deg2Rad w.est.actual_pitch,
                deg2Rad w.est.actual_yaw⟩).normalize m).y
        ∧ r.world.est.sim_acados_in.x0 systemStates.qz.idx
          = ((euler2quatern m ⟨deg2Rad w.est.actual_roll, deg2Rad w.est.actual_pitch,
                deg2Rad w.est.actual_yaw⟩).normalize m).z)
      ∧ (r.world.est.sim_acados_in.x0 systemStates.vbx.idx
          = (rotateLinearVeloE2B ((euler2quatern m
              ⟨deg2Rad w.est.actual_roll, deg2Rad w.est.actual_pitch,
                deg2Rad w.est.actual_yaw⟩).normalize m) v).x
        ∧ r.world.est.sim_acados_in.x0 systemStates.vby.idx
          = (rotateLinearVeloE2B ((euler2quatern m
              ⟨deg2Rad w.est.actual_roll, deg2Rad w.est.actual_pitch,
                deg2Rad w.est.actual_yaw⟩).normalize m) v).y
        ∧ r.world.est.sim_acados_in.x0 systemStates.vbz.idx
          = (rotateLinearVeloE2B ((euler2quatern m
              ⟨deg2Rad w.est.actual_roll, deg2Rad w.est.actual_pitch,
                deg2Rad w.est.actual_yaw⟩).normalize m) v).z)
      ∧ (r.world.est.sim_acados_in.x0 systemStates.wx.idx = w.est.actual_wx
        ∧ r.world.est.sim_acados_in.x0 systemStates.wy.idx = w.est.actual_wy
        ∧ r.world.est.sim_acados_in.x0 systemStates.wz.idx = w.est.actual_wz)
      ∧ (r.world.est.sim_acados_in.u0 controlInputs.w1.idx = (w.est.acados_w1_latest : K)
        ∧ r.world.est.sim_acados_in.u0 controlInputs.w2.idx = (w.est.acados_w2_latest : K)
        ∧ r.world.est.sim_acados_in.u0 controlInputs.w3.idx = (w.est.acados_w3_latest : K)
        ∧ r.world.est.sim_acados_in.u0 controlInputs.w4.idx = (w.est.acados_w4_latest : K))
      ∧ (r.world.est.actual_x = w.est.actual_x ∧ r.world.est.actual_y = w.est.actual_y
        ∧ r.world.est.actual_z = w.est.actual_z)
      ∧ (r.world.est.actual_roll = w.est.actual_roll
        ∧ r.world.est.actual_pitch = w.est.actual_pitch
        ∧ r.world.est.actual_yaw = w.est.actual_yaw)
      ∧ (r.world.est.actual_wx = w.est.actual_wx ∧ r.world.est.actual_wy = w.est.actual_wy
        ∧ r.world.est.actual_wz = w.est.actual_wz)
      ∧ (r.world.est.acados_w1_latest = w.est.acados_w1_latest
        ∧ r.world.est.acados_w2_latest = w.est.acados_w2_latest
        ∧ r.world.est.acados_w3_latest = w.est.acados_w3_latest
        ∧ r.world.est.acados_w4_latest = w.est.acados_w4_latest)
      ∧ (r.world.est.acados_w1_prelatest = w.est.acados_w1_prelatest
        ∧ r.world.est.acados_w2_prelatest = w.est.acados_w2_prelatest
        ∧ r.world.est.acados_w3_prelatest = w.est.acados_w3_prelatest
        ∧ r.world.est.acados_w4_prelatest = w.est.acados_w4_prelatest)
      ∧ (r.world.est.x_samples.length = 5 ∧ r.world.est.y_samples.length = 5
        ∧ r.world.est.z_samples.length = 5 ∧ r.world.est.vx_filter_samples.length = 5
        ∧ r.world.est.vy_filter_samples.length = 5 ∧ r.world.est.vz_filter_samples.length = 5)
      ∧ r.world.sim = (solver.solve (solver.set_u (solver.set_x (solver.set_T w.sim w.est.delay)
            r.world.est.sim_acados_in.x0) r.world.est.sim_acados_in.u0)).2
      ∧ r.world.est.sim_acados_status
          = (solver.solve (solver.set_u (solver.set_x (solver.set_T w.sim w.est.delay)
            r.world.est.sim_acados_in.x0) r.world.est.sim_acados_in.u0)).1
      ∧ r.world.est.sim_acados_out.status = (r.world.est.sim_acados_status : K)
      ∧ r.world.est.sim_acados_out.xn = solver.get_xn r.world.sim
      ∧ r.world.state_pub = w.state_pub ++
          [{ stamp := now
             pos := ⟨solver.get_xn r.world.sim systemStates.xq.idx,
               solver.get_xn r.world.sim systemStates.yq.idx,
               solver.get_xn r.world.sim systemStates.zq.idx⟩
             vel := ⟨solver.get_xn r.world.sim systemStates.vbx.idx,
               solver.get_xn r.world.sim systemStates.vby.idx,
               solver.get_xn r.world.sim systemStates.vbz.idx⟩
             quat := ⟨solver.get_xn r.world.sim systemStates.qw.idx,
               solver.get_xn r.world.sim systemStates.qx.idx,
               solver.get_xn r.world.sim systemStates.qy.idx,
               solver.get_xn r.world.sim systemStates.qz.idx⟩
             rates := ⟨solver.get_xn r.world.sim systemStates.wx.idx,
               solver.get_xn r.world.sim systemStates.wy.idx,
               solver.get_xn r.world.sim systemStates.wz.idx⟩ }] := by
  obtain ⟨v, hv, -, -, -⟩ := estimate_of_length
    { w.est with t0 := if e.last_real.isZero then Time.toSec e.current_real else w.est.t0 }
    (Time.toSec e.current_real - Time.toSec e.last_real)
    (if e.last_real.isZero then Time.toSec e.current_real else w.est.t0)
    hx hy hz hvx hvy hvz
  cases hp : predictor m solver w e now with
  | error f =>
    exfalso
    unfold predictor at hp
    cases hzero : e.last_real.isZero
    · simp only [hzero, Bool.false_eq_true, if_false] at hv hp
      simp only [hv, bind, Except.bind, pure, Except.pure] at hp
      exact Except.noConfusion hp
    · simp only [hzero, if_true] at hv hp
      simp only [hv, bind, Except.bind, pure, Except.pure] at hp
      exact Except.noConfusion hp
  | ok r =>
    unfold predictor at hp
    cases hzero : e.last_real.isZero
    · simp only [hzero, Bool.false_eq_true, if_false] at hv hp ⊢
      simp only [hv, bind, Except.bind, pure, Except.pure, Except.ok.injEq] at hp
      subst hp
      refine ⟨_, v, rfl, ⟨_, hv⟩, ?_⟩
      simp [systemStates.idx, controlInputs.idx, Function.update, hx, hy, hz, hvx, hvy, hvz]
    · simp only [hzero, if_true] at hv hp ⊢
      simp only [hv, bind, Except.bind, pure, Except.pure, Except.ok.injEq] at hp
      subst hp
      refine ⟨_, v, rfl, ⟨_, hv⟩, ?_⟩
      simp [systemStates.idx, controlInputs.idx, Function.update, hx, hy, hz, hvx, hvy, hvz]

end FrameLemmas

section SignLemmas

variable {K : Type} [LinearOrderedField K]

theorem rotate_neg (q : Quaterniond K) (v : Vector3d K) :
    rotateLinearVeloE2B q.neg v = rotateLinearVeloE2B q v := by
  rw [Vector3d.ext_iff3]
  simp only [rotateLinearVeloE2B, Quaterniond.neg]
  refine ⟨?_, ?_, ?_⟩ <;> ring

theorem normalize_neg (m : CMath K) (q : Quaterniond K) :
    q.neg.normalize m = (q.normalize m).neg := by
  have hn : q.neg.squaredNorm = q.squaredNorm := by
    simp only [Quaterniond.squaredNorm, Quaterniond.neg]
    ring
  rw [Quaterniond.ext_iff4]
  simp only [Quaterniond.normalize]
  rw [hn]
  simp only [Quaterniond.neg]
  exact ⟨neg_div _ _, neg_div _ _, neg_div _ _, neg_div _ _⟩

theorem euler2quatern_eq_raw_or_neg (m : CMath K) (angle : euler K) :
    euler2quatern m angle
      = if (euler2quaternRaw m angle).w < 0 then (euler2quaternRaw m angle).neg
        else euler2quaternRaw m angle := by
  unfold euler2quatern euler2quaternRaw Quaterniond.neg
  rfl

end SignLemmas

section ConstructorLemmas

variable {K : Type} [LinearOrderedField K] {σ : Type}

/-- The zero-filling loop stays in bounds as long as its index does: the first `k` writes
succeed and keep the length. -/
theorem zeroLoop_prefix (l : List K) (k : Nat) (hk : k ≤ l.length) :
    ∃ l2, (List.range k).foldlM (fun acc i => vset acc i 0) l = Except.ok l2
      ∧ l2.length = l.length := by
  induction k with
  | zero => exact ⟨l, rfl, rfl⟩
  | succ k ih =>
    obtain ⟨l2, h2, hlen⟩ := ih (Nat.le_of_succ_le hk)
    have hlt : k < l2.length := by omega
    refine ⟨l2.set k 0, ?_, ?_⟩
    · rw [List.range_succ, List.foldlM_append, h2]
      simp [List.foldlM, vset, hlt, bind, Except.bind, pure, Except.pure]
    · simp [hlen]

/-- The loop `for (i = 0; i <= n; i++) v[i] = 0.0` on a vector of exactly `n` elements
writes past the end. -/
theorem zeroLoop_overrun (l : List K) (n : Nat) (hn : l.length = n) :
    zeroLoop l n = .error .outOfBounds := by
  obtain ⟨l2, h2, hlen⟩ := zeroLoop_prefix l n (le_of_eq hn.symm)
  have hnot : ¬ n < l2.length := by omega
  unfold zeroLoop
  rw [List.range_succ, List.foldlM_append, h2]
  simp [List.foldlM, vset, hnot, bind, Except.bind, pure, Except.pure]

/-- The zero-filling loop over a C array stays in bounds up to the size of the array. -/
theorem arrayZeroLoop_ok {n : Nat} (a : Fin n → K) (k : Nat) (hk : k ≤ n) :
    ∃ a2, arrayZeroLoop a k = .ok a2 := by
  unfold arrayZeroLoop
  induction k with
  | zero => exact ⟨a, rfl⟩
  | succ k ih =>
    obtain ⟨a2, h2⟩ := ih (Nat.le_of_succ_le hk)
    have hlt : k < n := by omega
    refine ⟨Function.update a2 ⟨k, hlt⟩ 0, ?_⟩
    rw [List.range_succ, List.foldlM_append, h2]
    simp [List.foldlM, aset, hlt, bind, Except.bind, pure, Except.pure]

theorem arrayZeroLoop_NU (a : Fin NU → K) : ∃ a2, arrayZeroLoop a NU = .ok a2 :=
  arrayZeroLoop_ok a NU (le_refl _)

/-- The buffer initialisation of the constructor leaves defined behaviour on every
object: the six ring loops stay in bounds, the loop over `y` does not. -/
theorem initBuffers_fault (s : ESTIMATOR K) :
    s.memberInit.initBuffers = .error .outOfBounds := by
  obtain ⟨a0, h0⟩ := arrayZeroLoop_NU s.memberInit.sim_acados_in.u0
  obtain ⟨a1, h1⟩ := arrayZeroLoop_NU s.memberInit.sim_acados_in.u1
  unfold ESTIMATOR.initBuffers
  simp only [h0, h1, initRings_ok, bind, Except.bind, pure, Except.pure]
  have hy : zeroLoop (vresize (s.memberInit.y) (20 : Int).toNat) (20 : Int).toNat
      = .error .outOfBounds := zeroLoop_overrun _ _ (vresize_length _ _)
  simp only [ESTIMATOR.memberInit] at hy ⊢
  rw [hy]

end ConstructorLemmas

section ConstructorOutcome

variable {K : Type} [LinearOrderedField K] {σ : Type}

/-- The two ways the constructor ends: `exit(1)` with nothing set up when the solver's
setup call reports a non-zero status, and otherwise, after the publishers and subscribers
are set up, the out-of-bounds write of the loop over `y`. -/
theorem ctor_cases (create : σ → Int × σ) (s : ESTIMATOR K) (sim : σ) :
    ((create sim).1 ≠ 0 ∧ ESTIMATOR.ctor create s sim = .exited 1 [])
      ∨ ((create sim).1 = 0 ∧ ESTIMATOR.ctor create s sim = .undefined .outOfBounds
          [RosSetup.advertise "/cf_estimator/state_estimate" 1,
            RosSetup.advertise "/cf_estimator/euler_angles" 5,
            RosSetup.subscribe "/crazyflie/external_position" 5,
            RosSetup.subscribe "/crazyflie/imu" 5,
            RosSetup.subscribe "/crazyflie/euler_angles" 5,
            RosSetup.subscribe "/crazyflie/acados_motvel" 5]) := by
  unfold ESTIMATOR.ctor
  rw [initBuffers_fault]
  by_cases h : (create sim).1 = 0
  · right
    exact ⟨h, if_neg (not_not.mpr h)⟩
  · left
    exact ⟨h, if_pos h⟩

end ConstructorOutcome

/-! ## The claims -/

/-- C1: for every euler-angle triple, with `sin`/`cos` the real functions, the
quaternion returned by `euler2quatern` has `w^2 + x^2 + y^2 + z^2 = 1` and
`w ≥ 0`. -/
theorem euler2quatern_unit_and_nonneg (angle : euler ℝ) :
    (euler2quatern ⟨Real.cos, Real.sin, Real.sqrt⟩ angle).w ^ 2
        + (euler2quatern ⟨Real.cos, Real.sin, Real.sqrt⟩ angle).x ^ 2
        + (euler2quatern ⟨Real.cos, Real.sin, Real.sqrt⟩ angle).y ^ 2
        + (euler2quatern ⟨Real.cos, Real.sin, Real.sqrt⟩ angle).z ^ 2 = 1
      ∧ 0 ≤ (euler2quatern ⟨Real.cos, Real.sin, Real.sqrt⟩ angle).w := by
  refine ⟨euler2quatern_norm_of_pythagorean _ ?_ angle, euler2quatern_w_nonneg _ angle⟩
  intro t
  have := Real.cos_sq_add_sin_sq t
  simp only [pow_two] at this
  exact this

/-- C2 (as stated, refuted): at `phi = π`, `theta = psi = 0` the standard formula
gives `w = 0` (not negative, so nothing is negated) and `x = 1`, while
`euler2quatern` returns `x = -1`. -/
theorem euler2quatern_ne_standard_at_pi :
    (standardZYX ⟨Real.cos, Real.sin, Real.sqrt⟩ ⟨Real.pi, 0, 0⟩).x = 1
      ∧ ¬ (standardZYX ⟨Real.cos, Real.sin, Real.sqrt⟩ ⟨Real.pi, 0, 0⟩).w < 0
      ∧ (euler2quatern ⟨Real.cos, Real.sin, Real.sqrt⟩ ⟨Real.pi, 0, 0⟩).x = -1
      ∧ euler2quatern ⟨Real.cos, Real.sin, Real.sqrt⟩ ⟨Real.pi, 0, 0⟩
          ≠ canonicalize (standardZYX ⟨Real.cos, Real.sin, Real.sqrt⟩ ⟨Real.pi, 0, 0⟩) := by
  have hpi : Real.pi * 0.5 = Real.pi / 2 := by norm_num [div_eq_mul_inv]
  have hc : Real.cos (Real.pi * 0.5) = 0 := by rw [hpi]; exact Real.cos_pi_div_two
  have hs : Real.sin (Real.pi * 0.5) = 1 := by rw [hpi]; exact Real.sin_pi_div_two
  have e1 : (standardZYX ⟨Real.cos, Real.sin, Real.sqrt⟩ ⟨Real.pi, 0, 0⟩).x = 1 := by
    simp [standardZYX, hc, hs]
  have e2 : (standardZYX ⟨Real.cos, Real.sin, Real.sqrt⟩ ⟨Real.pi, 0, 0⟩).w = 0 := by
    simp [standardZYX, hc, hs]
  have e3 : (euler2quatern ⟨Real.cos, Real.sin, Real.sqrt⟩ ⟨Real.pi, 0, 0⟩).x = -1 := by
    simp [euler2quatern, hc, hs]
  refine ⟨e1, by rw [e2]; exact lt_irrefl 0, e3, ?_⟩
  intro h
  have hx := congrArg Quaterniond.x h
  rw [e3] at hx
  have hcan : (canonicalize (standardZYX ⟨Real.cos, Real.sin, Real.sqrt⟩ ⟨Real.pi, 0, 0⟩)).x = 1 := by
    unfold canonicalize
    rw [if_neg (by rw [e2]; exact lt_irrefl 0)]
    exact e1
  rw [hcan] at hx
  norm_num at hx

/-- C2 (amended): for every choice of `cos`/`sin` and every euler-angle triple,
`euler2quatern` returns the conjugate of the standard half-angle ZYX value
(same `w`, the three vector components with the opposite sign), with all four
components negated when that `w` is negative. -/
theorem euler2quatern_eq_canonical_conjugate_standard {K : Type} [LinearOrderedField K]
    (m : CMath K) (angle : euler K) :
    euler2quatern m angle = canonicalize (standardZYX m angle).conjugate := by
  unfold euler2quatern canonicalize standardZYX Quaterniond.conjugate
  simp only
  split_ifs
  all_goals
    rw [Quaterniond.ext_iff4]
    simp only
    refine ⟨trivial, ?_, ?_, ?_⟩ <;> ring

/-- C3: for every unit quaternion `q` and every vector `v`, rotating `v` with `q`
and then with the conjugate of `q` gives `v` back. -/
theorem rotateLinearVeloE2B_conjugate_roundtrip {K : Type} [LinearOrderedField K]
    (q : Quaterniond K) (v : Vector3d K)
    (hq : q.w ^ 2 + q.x ^ 2 + q.y ^ 2 + q.z ^ 2 = 1) :
    rotateLinearVeloE2B q.conjugate (rotateLinearVeloE2B q v) = v := by
  obtain ⟨w, x, y, z⟩ := q
  obtain ⟨a, b, c⟩ := v
  simp only at hq
  rw [Vector3d.ext_iff3]
  simp only [rotateLinearVeloE2B, Quaterniond.conjugate]
  refine ⟨?_, ?_, ?_⟩
  · linear_combination
      (2 * (w ^ 2 + x ^ 2 + y ^ 2 + z ^ 2) * a + 2 * (w ^ 2 + x ^ 2 - y ^ 2 - z ^ 2) * a
        + 4 * x * y * b + 4 * x * z * c) * hq
  · linear_combination
      (2 * (w ^ 2 + x ^ 2 + y ^ 2 + z ^ 2) * b + 2 * (w ^ 2 - x ^ 2 + y ^ 2 - z ^ 2) * b
        + 4 * x * y * a + 4 * y * z * c) * hq
  · linear_combination
      (2 * (w ^ 2 + x ^ 2 + y ^ 2 + z ^ 2) * c + 2 * (w ^ 2 - x ^ 2 - y ^ 2 + z ^ 2) * c
        + 4 * x * z * a + 4 * y * z * b) * hq

/-- Witness of C3 at the unit quaternion `(1/2, 1/2, 1/2, 1/2)` and `v = (1, 2, 3)`. -/
theorem rotateLinearVeloE2B_conjugate_roundtrip_witness :
    ((1/2 : ℚ) ^ 2 + (1/2) ^ 2 + (1/2) ^ 2 + (1/2) ^ 2 = 1)
      ∧ rotateLinearVeloE2B (Quaterniond.conjugate (⟨1/2, 1/2, 1/2, 1/2⟩ : Quaterniond ℚ))
          (rotateLinearVeloE2B ⟨1/2, 1/2, 1/2, 1/2⟩ ⟨1, 2, 3⟩) = ⟨1, 2, 3⟩ :=
  ⟨by norm_num,
    rotateLinearVeloE2B_conjugate_roundtrip (⟨1/2, 1/2, 1/2, 1/2⟩ : Quaterniond ℚ) ⟨1, 2, 3⟩
      (by norm_num)⟩

/-- C4: for every vector `v`, `rotateLinearVeloE2B` applied to the identity
quaternion `(1, 0, 0, 0)` returns `v` unchanged. -/
theorem rotateLinearVeloE2B_identity {K : Type} [LinearOrderedField K] (v : Vector3d K) :
    rotateLinearVeloE2B ⟨1, 0, 0, 0⟩ v = v := by
  obtain ⟨a, b, c⟩ := v
  rw [Vector3d.ext_iff3]
  simp only [rotateLinearVeloE2B]
  refine ⟨?_, ?_, ?_⟩ <;> ring

/-- C5: for every unit quaternion `q` and every vector `v`, `rotateLinearVeloE2B q v`
is the product of the transpose of the standard rotation matrix `R(q)` with `v`,
and it is the vector part of the Hamilton product `conj(q) · (0, v) · q`. -/
theorem rotateLinearVeloE2B_eq_transpose_rotation {K : Type} [LinearOrderedField K]
    (q : Quaterniond K) (v : Vector3d K)
    (hq : q.w ^ 2 + q.x ^ 2 + q.y ^ 2 + q.z ^ 2 = 1) :
    (![(rotateLinearVeloE2B q v).x, (rotateLinearVeloE2B q v).y, (rotateLinearVeloE2B q v).z]
        = (rotationMatrix q).transpose.mulVec ![v.x, v.y, v.z])
      ∧ (rotateLinearVeloE2B q v).x = (star q.toHamilton * v.toPure * q.toHamilton).imI
      ∧ (rotateLinearVeloE2B q v).y = (star q.toHamilton * v.toPure * q.toHamilton).imJ
      ∧ (rotateLinearVeloE2B q v).z = (star q.toHamilton * v.toPure * q.toHamilton).imK
      ∧ (star q.toHamilton * v.toPure * q.toHamilton).re = 0 := by
  obtain ⟨w, x, y, z⟩ := q
  obtain ⟨a, b, c⟩ := v
  simp only at hq
  refine ⟨?_, ?_, ?_, ?_, ?_⟩
  · ext i
    fin_cases i
    · simp [rotateLinearVeloE2B, rotationMatrix, Matrix.mulVec, Matrix.vecHead, Matrix.vecTail,
        Matrix.dotProduct, Fin.sum_univ_three]
      refine Or.inl ?_
      linear_combination 2 * hq
    · simp [rotateLinearVeloE2B, rotationMatrix, Matrix.mulVec, Matrix.vecHead, Matrix.vecTail,
        Matrix.dotProduct, Fin.sum_univ_three]
      refine Or.inl ?_
      linear_combination 2 * hq
    · simp [rotateLinearVeloE2B, rotationMatrix, Matrix.mulVec, Matrix.vecHead, Matrix.vecTail,
        Matrix.dotProduct, Fin.sum_univ_three]
      refine Or.inl ?_
      linear_combination 2 * hq
  · simp [rotateLinearVeloE2B, Quaterniond.toHamilton, Vector3d.toPure]
    linear_combination (a) * hq
  · simp [rotateLinearVeloE2B, Quaterniond.toHamilton, Vector3d.toPure]
    linear_combination (b) * hq
  · simp [rotateLinearVeloE2B, Quaterniond.toHamilton, Vector3d.toPure]
    linear_combination (c) * hq
  · simp [Quaterniond.toHamilton, Vector3d.toPure]
    ring

/-- Witness of C5 at the unit quaternion `(1/2, 1/2, 1/2, 1/2)` and `v = (1, 2, 3)`:
the rotation gives `(2, 3, 1)`. -/
theorem rotateLinearVeloE2B_eq_transpose_rotation_witness :
    ((1/2 : ℚ) ^ 2 + (1/2) ^ 2 + (1/2) ^ 2 + (1/2) ^ 2 = 1)
      ∧ rotateLinearVeloE2B (⟨1/2, 1/2, 1/2, 1/2⟩ : Quaterniond ℚ) ⟨1, 2, 3⟩ = ⟨2, 3, 1⟩
      ∧ (star (Quaterniond.toHamilton (⟨1/2, 1/2, 1/2, 1/2⟩ : Quaterniond ℚ))
            * Vector3d.toPure ⟨1, 2, 3⟩
            * Quaterniond.toHamilton ⟨1/2, 1/2, 1/2, 1/2⟩).imI = 2 := by
  have h := rotateLinearVeloE2B_eq_transpose_rotation
    (⟨1/2, 1/2, 1/2, 1/2⟩ : Quaterniond ℚ) ⟨1, 2, 3⟩ (by norm_num)
  have hv : rotateLinearVeloE2B (⟨1/2, 1/2, 1/2, 1/2⟩ : Quaterniond ℚ) ⟨1, 2, 3⟩ = ⟨2, 3, 1⟩ := by
    rw [Vector3d.ext_iff3]
    simp only [rotateLinearVeloE2B]
    norm_num
  refine ⟨by norm_num, hv, ?_⟩
  rw [← h.2.1, hv]

/-- C6: with elapsed time `≤ 1.0`, position rings holding only zeros and the cached
position equal to `Δ` on one axis and 0 on the other two, `estimateWordLinearVelocities`
returns `Δ / dt` on that axis and exactly 0 on the other two, for every `Δ` and every
`dt ≠ 0` (and `Δ / dt` is the quotient: multiplied by `dt` it gives `Δ`). -/
theorem estimate_startup_single_step {K : Type} [LinearOrderedField K]
    (s : ESTIMATOR K) (dt delta Δ : K)
    (hx : s.x_samples = [0, 0, 0, 0, 0]) (hy : s.y_samples = [0, 0, 0, 0, 0])
    (hz : s.z_samples = [0, 0, 0, 0, 0])
    (hvx : s.vx_filter_samples.length = 5) (hvy : s.vy_filter_samples.length = 5)
    (hvz : s.vz_filter_samples.length = 5)
    (hdelta : delta ≤ 1.0) (hdt : dt ≠ 0) :
    (∃ s1, estimateWordLinearVelocities (eRaptorCallback s ⟨⟨Δ, 0, 0⟩⟩) dt delta
        = .ok (⟨Δ / dt, 0, 0⟩, s1))
      ∧ (∃ s1, estimateWordLinearVelocities (eRaptorCallback s ⟨⟨0, Δ, 0⟩⟩) dt delta
        = .ok (⟨0, Δ / dt, 0⟩, s1))
      ∧ (∃ s1, estimateWordLinearVelocities (eRaptorCallback s ⟨⟨0, 0, Δ⟩⟩) dt delta
        = .ok (⟨0, 0, Δ / dt⟩, s1))
      ∧ Δ / dt * dt = Δ := by
  obtain ⟨u0, u1, u2, u3, u4, evx⟩ := list_length_five _ hvx
  obtain ⟨v0, v1, v2, v3, v4, evy⟩ := list_length_five _ hvy
  obtain ⟨w0, w1, w2, w3, w4, evz⟩ := list_length_five _ hvz
  have hnot : ¬ delta > 1.0 := not_lt.mpr hdelta
  refine ⟨?_, ?_, ?_, div_mul_cancel₀ Δ hdt⟩
  · rw [estimate_five (eRaptorCallback s ⟨⟨Δ, 0, 0⟩⟩) dt delta
      0 0 0 0 0 0 0 0 0 0 0 0 0 0 0 u0 u1 u2 u3 u4 v0 v1 v2 v3 v4 w0 w1 w2 w3 w4
      hx hy hz evx evy evz]
    simp [eRaptorCallback, hnot]
  · rw [estimate_five (eRaptorCallback s ⟨⟨0, Δ, 0⟩⟩) dt delta
      0 0 0 0 0 0 0 0 0 0 0 0 0 0 0 u0 u1 u2 u3 u4 v0 v1 v2 v3 v4 w0 w1 w2 w3 w4
      hx hy hz evx evy evz]
    simp [eRaptorCallback, hnot]
  · rw [estimate_five (eRaptorCallback s ⟨⟨0, 0, Δ⟩⟩) dt delta
      0 0 0 0 0 0 0 0 0 0 0 0 0 0 0 u0 u1 u2 u3 u4 v0 v1 v2 v3 v4 w0 w1 w2 w3 w4
      hx hy hz evx evy evz]
    simp [eRaptorCallback, hnot]

/-- Witness of C6 on the sample object with `Δ = 3`, `dt = 0.02`, elapsed time `0.5`:
the step on the x axis gives `(150, 0, 0)`. -/
theorem estimate_startup_single_step_witness :
    ((0.5 : ℚ) ≤ 1.0) ∧ ((0.02 : ℚ) ≠ 0)
      ∧ ∃ s1, estimateWordLinearVelocities
          (eRaptorCallback (ESTIMATOR.sample : ESTIMATOR ℚ) ⟨⟨3, 0, 0⟩⟩) 0.02 0.5
            = .ok (⟨150, 0, 0⟩, s1) := by
  have h := estimate_startup_single_step (ESTIMATOR.sample : ESTIMATOR ℚ) 0.02 0.5 3
    rfl rfl rfl rfl rfl rfl (by norm_num) (by norm_num)
  refine ⟨by norm_num, by norm_num, ?_⟩
  obtain ⟨s1, h1⟩ := h.1
  refine ⟨s1, ?_⟩
  rw [h1]
  norm_num

/-- C7: with elapsed time `> 1.0`, for every content of the (five-slot) rings and every
`dt`, each axis of the value returned by `estimateWordLinearVelocities` is
`0.3306*vPrev[4] - 0.02732*vPrev[3] + 35.7*pNew - 35.7*pPrev`, where `vPrev` is the
filtered-velocity ring before the call, `pNew` the cached position and `pPrev` the last
slot of the position ring before the call; the result is the same for every `dt`. -/
theorem estimate_lowpass_recurrence {K : Type} [LinearOrderedField K]
    (s : ESTIMATOR K) (dt delta : K)
    (hx : s.x_samples.length = 5) (hy : s.y_samples.length = 5) (hz : s.z_samples.length = 5)
    (hvx : s.vx_filter_samples.length = 5) (hvy : s.vy_filter_samples.length = 5)
    (hvz : s.vz_filter_samples.length = 5)
    (hdelta : delta > 1.0) :
    ∃ (v : Vector3d K) (s1 : ESTIMATOR K),
      estimateWordLinearVelocities s dt delta = .ok (v, s1)
      ∧ v.x = 0.3306 * s.vx_filter_samples.getD 4 0 - 0.02732 * s.vx_filter_samples.getD 3 0
          + 35.7 * s.actual_x - 35.7 * s.x_samples.getD 4 0
      ∧ v.y = 0.3306 * s.vy_filter_samples.getD 4 0 - 0.02732 * s.vy_filter_samples.getD 3 0
          + 35.7 * s.actual_y - 35.7 * s.y_samples.getD 4 0
      ∧ v.z = 0.3306 * s.vz_filter_samples.getD 4 0 - 0.02732 * s.vz_filter_samples.getD 3 0
          + 35.7 * s.actual_z - 35.7 * s.z_samples.getD 4 0
      ∧ ∀ dt2 : K, estimateWordLinearVelocities s dt2 delta = .ok (v, s1) := by
  obtain ⟨v, hv, h1, h2, h3⟩ := estimate_of_length s dt delta hx hy hz hvx hvy hvz
  rw [if_pos hdelta] at h1 h2 h3
  refine ⟨v, _, hv, h1, h2, h3, ?_⟩
  intro dt2
  obtain ⟨v2, hv2, k1, k2, k3⟩ := estimate_of_length s dt2 delta hx hy hz hvx hvy hvz
  rw [if_pos hdelta] at k1 k2 k3
  have hvv : v2 = v := by
    rw [Vector3d.ext_iff3]
    exact ⟨k1.trans h1.symm, k2.trans h2.symm, k3.trans h3.symm⟩
  rw [hv2, hvv]

/-- Witness of C7: rings holding a linear ramp (positions `0, 1, 2, 3, 4`, filtered
velocities `10, 20, 30, 40, 50`), cached x position 5, elapsed time 2: the x value is
`0.3306*50 - 0.02732*40 + 35.7*5 - 35.7*4 = 51.1372`. -/
theorem estimate_lowpass_recurrence_witness :
    ((2 : ℚ) > 1.0)
      ∧ ∃ v s1, estimateWordLinearVelocities
          { (ESTIMATOR.sample : ESTIMATOR ℚ) with
            x_samples := [0, 1, 2, 3, 4], vx_filter_samples := [10, 20, 30, 40, 50]
            actual_x := 5 } 0.015 2 = .ok (v, s1)
        ∧ v.x = 51.1372 := by
  have h := estimate_lowpass_recurrence
    { (ESTIMATOR.sample : ESTIMATOR ℚ) with
      x_samples := [0, 1, 2, 3, 4], vx_filter_samples := [10, 20, 30, 40, 50]
      actual_x := 5 } 0.015 2 rfl rfl rfl rfl rfl rfl (by norm_num)
  refine ⟨by norm_num, ?_⟩
  obtain ⟨v, s1, hv, h1, -⟩ := h
  refine ⟨v, s1, hv, ?_⟩
  rw [h1]
  norm_num [ESTIMATOR.sample]

/-- C8: starting from the constructor's zero-initialised rings, six consecutive ticks of
`predictor` whose cached positions are (0,0,0), (0,0,0), (0,0,0), (0,0,0), (1,0,0), (2,0,0),
with cached roll = pitch = yaw = 0 and `dt = 0.02` on the sixth tick, all succeed, and when
the elapsed-time argument of the sixth tick is `≤ 1.0` they leave `x0[vbx] = 50` and
`x0[vby] = x0[vbz] = 0`.  (That argument is the start-time reference `t0` as the six ticks
leave it.) -/
theorem six_ticks_body_velocity {σ : Type} (solver : SimSolver σ ℝ) (s : ESTIMATOR ℝ)
    (sim : σ) (pub : List (CrazyflieStateStamped ℝ))
    (e1 e2 e3 e4 e5 e6 : TimerEvent) (n1 n2 n3 n4 n5 n6 : Time)
    (hroll : s.actual_roll = 0) (hpitch : s.actual_pitch = 0) (hyaw : s.actual_yaw = 0)
    (hdt : Time.toSec e6.current_real - Time.toSec e6.last_real = (0.02 : ℝ)) :
    ∃ (s0 : ESTIMATOR ℝ) (r1 r2 r3 r4 r5 r6 : predictorResult σ ℝ),
      s.initRings = .ok s0
      ∧ runTicks ⟨Real.cos, Real.sin, Real.sqrt⟩ solver ⟨s0, sim, pub⟩
          [(⟨0, 0, 0⟩, e1, n1), (⟨0, 0, 0⟩, e2, n2), (⟨0, 0, 0⟩, e3, n3), (⟨0, 0, 0⟩, e4, n4),
            (⟨1, 0, 0⟩, e5, n5), (⟨2, 0, 0⟩, e6, n6)]
          = .ok [r1, r2, r3, r4, r5, r6]
      ∧ r6.arg_dt = 0.02
      ∧ r6.arg_delta = [e1, e2, e3, e4, e5, e6].foldl
          (fun t e => if e.last_real.isZero then Time.toSec e.current_real else t) s.t0
      ∧ (r6.arg_delta ≤ 1.0 →
          r6.world.est.sim_acados_in.x0 systemStates.vbx.idx = 50
          ∧ r6.world.est.sim_acados_in.x0 systemStates.vby.idx = 0
          ∧ r6.world.est.sim_acados_in.x0 systemStates.vbz.idx = 0) := by
  obtain ⟨r1, h1, x1, y1, z1, vx1, vy1, vz1, ro1, pi1, ya1, t1, -, -, -⟩ :=
    tick_level_attitude solver
      ⟨{ s with
          x_samples := [0, 0, 0, 0, 0], y_samples := [0, 0, 0, 0, 0]
          z_samples := [0, 0, 0, 0, 0], vx_filter_samples := [0, 0, 0, 0, 0]
          vy_filter_samples := [0, 0, 0, 0, 0], vz_filter_samples := [0, 0, 0, 0, 0] }, sim, pub⟩
      ⟨0, 0, 0⟩ e1 n1 0 0 0 0 0 0 0 0 0 0 0 0 0 0 0 rfl rfl rfl rfl rfl rfl hroll hpitch hyaw
  obtain ⟨r2, h2, x2, y2, z2, vx2, vy2, vz2, ro2, pi2, ya2, t2, -, -, -⟩ :=
    tick_level_attitude solver r1.world ⟨0, 0, 0⟩ e2 n2 _ _ _ _ _ _ _ _ _ _ _ _ _ _ _
      x1 y1 z1 vx1 vy1 vz1 ro1 pi1 ya1
  obtain ⟨r3, h3, x3, y3, z3, vx3, vy3, vz3, ro3, pi3, ya3, t3, -, -, -⟩ :=
    tick_level_attitude solver r2.world ⟨0, 0, 0⟩ e3 n3 _ _ _ _ _ _ _ _ _ _ _ _ _ _ _
      x2 y2 z2 vx2 vy2 vz2 ro2 pi2 ya2
  obtain ⟨r4, h4, x4, y4, z4, vx4, vy4, vz4, ro4, pi4, ya4, t4, -, -, -⟩ :=
    tick_level_attitude solver r3.world ⟨0, 0, 0⟩ e4 n4 _ _ _ _ _ _ _ _ _ _ _ _ _ _ _
      x3 y3 z3 vx3 vy3 vz3 ro3 pi3 ya3
  obtain ⟨r5, h5, x5, y5, z5, vx5, vy5, vz5, ro5, pi5, ya5, t5, -, -, -⟩ :=
    tick_level_attitude solver r4.world ⟨1, 0, 0⟩ e5 n5 _ _ _ _ _ _ _ _ _ _ _ _ _ _ _
      x4 y4 z4 vx4 vy4 vz4 ro4 pi4 ya4
  obtain ⟨r6, h6, -, -, -, -, -, -, -, -, -, -, d6, a6, k6⟩ :=
    tick_level_attitude solver r5.world ⟨2, 0, 0⟩ e6 n6 _ _ _ _ _ _ _ _ _ _ _ _ _ _ _
      x5 y5 z5 vx5 vy5 vz5 ro5 pi5 ya5
  refine ⟨_, r1, r2, r3, r4, r5, r6, initRings_ok s, ?_, a6.trans hdt, ?_, ?_⟩
  · simp only [runTicks, h1, h2, h3, h4, h5, h6, bind, Except.bind, pure, Except.pure]
  · rw [d6, t5, t4, t3, t2, t1]
    simp only [List.foldl]
  · intro hle
    obtain ⟨kx, ky, kz⟩ := k6 hle
    rw [kx, ky, kz, a6, hdt]
    norm_num

/-- Witness of C8: the sample object and solver, first tick at 0.5 s (previous timestamp
zero), then ticks every 0.02 s up to 0.6 s; the elapsed-time argument of the sixth tick
is 0.5. -/
theorem six_ticks_body_velocity_witness :
    ∃ (s0 : ESTIMATOR ℝ) (r1 r2 r3 r4 r5 r6 : predictorResult Unit ℝ),
      ESTIMATOR.initRings (ESTIMATOR.sample : ESTIMATOR ℝ) = .ok s0
      ∧ runTicks ⟨Real.cos, Real.sin, Real.sqrt⟩ SimSolver.sample ⟨s0, (), []⟩
          [(⟨0, 0, 0⟩, ⟨⟨0, 0⟩, ⟨0, 500000000⟩⟩, ⟨0, 500000000⟩),
            (⟨0, 0, 0⟩, ⟨⟨0, 500000000⟩, ⟨0, 520000000⟩⟩, ⟨0, 520000000⟩),
            (⟨0, 0, 0⟩, ⟨⟨0, 520000000⟩, ⟨0, 540000000⟩⟩, ⟨0, 540000000⟩),
            (⟨0, 0, 0⟩, ⟨⟨0, 540000000⟩, ⟨0, 560000000⟩⟩, ⟨0, 560000000⟩),
            (⟨1, 0, 0⟩, ⟨⟨0, 560000000⟩, ⟨0, 580000000⟩⟩, ⟨0, 580000000⟩),
            (⟨2, 0, 0⟩, ⟨⟨0, 580000000⟩, ⟨0, 600000000⟩⟩, ⟨0, 600000000⟩)]
          = .ok [r1, r2, r3, r4, r5, r6]
      ∧ r6.arg_delta = 0.5
      ∧ r6.world.est.sim_acados_in.x0 systemStates.vbx.idx = 50 := by
  obtain ⟨s0, r1, r2, r3, r4, r5, r6, h0, hrun, -, hdelta, himp⟩ :=
    six_ticks_body_velocity SimSolver.sample (ESTIMATOR.sample : ESTIMATOR ℝ) () []
      ⟨⟨0, 0⟩, ⟨0, 500000000⟩⟩ ⟨⟨0, 500000000⟩, ⟨0, 520000000⟩⟩
      ⟨⟨0, 520000000⟩, ⟨0, 540000000⟩⟩ ⟨⟨0, 540000000⟩, ⟨0, 560000000⟩⟩
      ⟨⟨0, 560000000⟩, ⟨0, 580000000⟩⟩ ⟨⟨0, 580000000⟩, ⟨0, 600000000⟩⟩
      ⟨0, 500000000⟩ ⟨0, 520000000⟩ ⟨0, 540000000⟩ ⟨0, 560000000⟩ ⟨0, 580000000⟩
      ⟨0, 600000000⟩ rfl rfl rfl (by norm_num [Time.toSec])
  have hd : r6.arg_delta = 0.5 := by
    rw [hdelta]
    norm_num [List.foldl, Time.isZero, Time.toSec]
  refine ⟨s0, r1, r2, r3, r4, r5, r6, h0, hrun, hd, (himp ?_).1⟩
  rw [hd]
  norm_num

/-- C9 (the code at two failing inputs): `predictor` passes the start-time reference `t0`
itself as the elapsed-time argument.  On a first tick at 100 s (previous timestamp zero,
cached position (1,0,0), level attitude) the argument is 100 although 0 s have elapsed, so
the low-pass branch runs and `x0[vbx] = 35.7`; on a tick at 5 s of an object whose `t0` is
0.5 s the argument is 0.5 although 4.5 s have elapsed, so the finite-difference branch
runs and `x0[vbx] = 1 / 0.02 = 50`. -/
theorem predictor_elapsed_argument_is_start_reference :
    (∃ r : predictorResult Unit ℝ,
      predictor ⟨Real.cos, Real.sin, Real.sqrt⟩ SimSolver.sample
          ⟨eRaptorCallback ESTIMATOR.sample ⟨⟨1, 0, 0⟩⟩, (), []⟩
          ⟨⟨0, 0⟩, ⟨100, 0⟩⟩ ⟨100, 0⟩ = .ok r
      ∧ r.world.est.t0 = 100
      ∧ Time.toSec (⟨100, 0⟩ : Time) - r.world.est.t0 = 0
      ∧ r.arg_delta = 100
      ∧ r.world.est.sim_acados_in.x0 systemStates.vbx.idx = 35.7)
    ∧ (∃ r : predictorResult Unit ℝ,
      predictor ⟨Real.cos, Real.sin, Real.sqrt⟩ SimSolver.sample
          ⟨eRaptorCallback { (ESTIMATOR.sample : ESTIMATOR ℝ) with t0 := 0.5 } ⟨⟨1, 0, 0⟩⟩,
            (), []⟩
          ⟨⟨4, 980000000⟩, ⟨5, 0⟩⟩ ⟨5, 0⟩ = .ok r
      ∧ r.world.est.t0 = 0.5
      ∧ Time.toSec (⟨5, 0⟩ : Time) - r.world.est.t0 = 4.5
      ∧ r.arg_delta = 0.5
      ∧ r.world.est.sim_acados_in.x0 systemStates.vbx.idx = 50) := by
  constructor
  · obtain ⟨r, v, hr, -, f1, -, -, -, hadt, hdelta, ht0, -, -, -, -, -, -, -, kx, -, -⟩ :=
      predictor_of_length ⟨Real.cos, Real.sin, Real.sqrt⟩ SimSolver.sample
        ⟨eRaptorCallback (ESTIMATOR.sample : ESTIMATOR ℝ) ⟨⟨1, 0, 0⟩⟩, (), []⟩
        ⟨⟨0, 0⟩, ⟨100, 0⟩⟩ ⟨100, 0⟩ rfl rfl rfl rfl rfl rfl
    have hd : r.arg_delta = 100 := by
      rw [hdelta]; norm_num [Time.isZero, Time.toSec]
    have ht : r.world.est.t0 = 100 := by
      rw [ht0]; norm_num [Time.isZero, Time.toSec]
    refine ⟨r, hr, ht, ?_, hd, ?_⟩
    · rw [ht]; norm_num [Time.toSec]
    · have hroll : (eRaptorCallback (ESTIMATOR.sample : ESTIMATOR ℝ) ⟨⟨1, 0, 0⟩⟩).actual_roll
          = 0 := rfl
      have hpitch : (eRaptorCallback (ESTIMATOR.sample : ESTIMATOR ℝ) ⟨⟨1, 0, 0⟩⟩).actual_pitch
          = 0 := rfl
      have hyaw : (eRaptorCallback (ESTIMATOR.sample : ESTIMATOR ℝ) ⟨⟨1, 0, 0⟩⟩).actual_yaw
          = 0 := rfl
      dsimp only at kx
      rw [hroll, hpitch, hyaw, attitude_zero, rotate_one] at kx
      rw [kx, f1, hd]
      norm_num [eRaptorCallback, ESTIMATOR.sample]
  · obtain ⟨r, v, hr, -, f1, -, -, -, hadt, hdelta, ht0, -, -, -, -, -, -, -, kx, -, -⟩ :=
      predictor_of_length ⟨Real.cos, Real.sin, Real.sqrt⟩ SimSolver.sample
        ⟨eRaptorCallback { (ESTIMATOR.sample : ESTIMATOR ℝ) with t0 := 0.5 } ⟨⟨1, 0, 0⟩⟩,
          (), []⟩
        ⟨⟨4, 980000000⟩, ⟨5, 0⟩⟩ ⟨5, 0⟩ rfl rfl rfl rfl rfl rfl
    have hd : r.arg_delta = 0.5 := by
      rw [hdelta]; norm_num [Time.isZero, eRaptorCallback]
    have ht : r.world.est.t0 = 0.5 := by
      rw [ht0]; norm_num [Time.isZero, eRaptorCallback]
    have ha : r.arg_dt = 0.02 := by
      rw [hadt]; norm_num [Time.toSec]
    refine ⟨r, hr, ht, ?_, hd, ?_⟩
    · rw [ht]; norm_num [Time.toSec]
    · have hroll : (eRaptorCallback { (ESTIMATOR.sample : ESTIMATOR ℝ) with t0 := 0.5 }
          ⟨⟨1, 0, 0⟩⟩).actual_roll = 0 := rfl
      have hpitch : (eRaptorCallback { (ESTIMATOR.sample : ESTIMATOR ℝ) with t0 := 0.5 }
          ⟨⟨1, 0, 0⟩⟩).actual_pitch = 0 := rfl
      have hyaw : (eRaptorCallback { (ESTIMATOR.sample : ESTIMATOR ℝ) with t0 := 0.5 }
          ⟨⟨1, 0, 0⟩⟩).actual_yaw = 0 := rfl
      dsimp only at kx
      rw [hroll, hpitch, hyaw, attitude_zero, rotate_one] at kx
      rw [kx, f1, hd, ha]
      norm_num [eRaptorCallback, ESTIMATOR.sample]

/-- C10 (as stated, refuted): on a first tick at 100 s, whose previous-invocation
timestamp is the zero value, the `dt` that `predictor` computes and passes to the velocity
estimator is 100, not 0. -/
theorem predictor_first_tick_dt_not_zero :
    Time.isZero (⟨0, 0⟩ : Time) = true
      ∧ ∃ r : predictorResult Unit ℝ,
        predictor ⟨Real.cos, Real.sin, Real.sqrt⟩ SimSolver.sample
            ⟨ESTIMATOR.sample, (), []⟩ ⟨⟨0, 0⟩, ⟨100, 0⟩⟩ ⟨100, 0⟩ = .ok r
        ∧ r.dt = 100 ∧ r.arg_dt = 100 ∧ r.arg_dt ≠ 0 := by
  refine ⟨rfl, ?_⟩
  obtain ⟨r, v, hr, -, -, -, -, hdt, hadt, -⟩ :=
    predictor_of_length ⟨Real.cos, Real.sin, Real.sqrt⟩ SimSolver.sample
      ⟨(ESTIMATOR.sample : ESTIMATOR ℝ), (), []⟩ ⟨⟨0, 0⟩, ⟨100, 0⟩⟩ ⟨100, 0⟩
      rfl rfl rfl rfl rfl rfl
  have h1 : r.dt = 100 := by rw [hdt]; norm_num [Time.toSec]
  have h2 : r.arg_dt = 100 := by rw [hadt]; norm_num [Time.toSec]
  exact ⟨r, hr, h1, h2, by rw [h2]; norm_num⟩

/-- C10 (amended): on every tick (rings of five slots) `predictor` succeeds and the `dt` it
computes and passes to the velocity estimator is the current timestamp minus the previous
one; on the very first tick, whose previous timestamp is the zero value, that is the
current timestamp in seconds. -/
theorem predictor_dt_is_timestamp_difference {K : Type} [LinearOrderedField K] {σ : Type}
    (m : CMath K) (solver : SimSolver σ K) (w : World σ K) (e : TimerEvent) (now : Time)
    (hx : w.est.x_samples.length = 5) (hy : w.est.y_samples.length = 5)
    (hz : w.est.z_samples.length = 5)
    (hvx : w.est.vx_filter_samples.length = 5) (hvy : w.est.vy_filter_samples.length = 5)
    (hvz : w.est.vz_filter_samples.length = 5) :
    ∃ r : predictorResult σ K,
      predictor m solver w e now = .ok r
      ∧ r.dt = Time.toSec e.current_real - Time.toSec e.last_real
      ∧ r.arg_dt = r.dt
      ∧ (e.last_real.isZero = true → r.arg_dt = Time.toSec e.current_real) := by
  obtain ⟨r, v, hr, -, -, -, -, hdt, hadt, -⟩ :=
    predictor_of_length m solver w e now hx hy hz hvx hvy hvz
  refine ⟨r, hr, hdt, hadt.trans hdt.symm, ?_⟩
  intro hzero
  have hsec : e.last_real.sec = 0 ∧ e.last_real.nsec = 0 := by
    simpa [Time.isZero] using hzero
  rw [hadt]
  simp [Time.toSec, hsec.1, hsec.2]

/-- Witness of C10 (amended): a first tick at 100 s and a later tick from 100 s to
100.015 s on the sample object. -/
theorem predictor_dt_is_timestamp_difference_witness :
    (∃ r : predictorResult Unit ℚ,
      predictor ⟨fun _ => 1, fun _ => 0, fun _ => 1⟩ SimSolver.sample
          ⟨ESTIMATOR.sample, (), []⟩ ⟨⟨0, 0⟩, ⟨100, 0⟩⟩ ⟨100, 0⟩ = .ok r
      ∧ r.arg_dt = 100)
    ∧ (∃ r : predictorResult Unit ℚ,
      predictor ⟨fun _ => 1, fun _ => 0, fun _ => 1⟩ SimSolver.sample
          ⟨ESTIMATOR.sample, (), []⟩ ⟨⟨100, 0⟩, ⟨100, 15000000⟩⟩ ⟨100, 15000000⟩ = .ok r
      ∧ r.arg_dt = 0.015) := by
  constructor
  · obtain ⟨r, hr, hdt, harg, hfirst⟩ := predictor_dt_is_timestamp_difference
      (⟨fun _ => 1, fun _ => 0, fun _ => 1⟩ : CMath ℚ) SimSolver.sample
      ⟨ESTIMATOR.sample, (), []⟩ ⟨⟨0, 0⟩, ⟨100, 0⟩⟩ ⟨100, 0⟩ rfl rfl rfl rfl rfl rfl
    refine ⟨r, hr, ?_⟩
    rw [hfirst rfl]
    norm_num [Time.toSec]
  · obtain ⟨r, hr, hdt, harg, -⟩ := predictor_dt_is_timestamp_difference
      (⟨fun _ => 1, fun _ => 0, fun _ => 1⟩ : CMath ℚ) SimSolver.sample
      ⟨ESTIMATOR.sample, (), []⟩ ⟨⟨100, 0⟩, ⟨100, 15000000⟩⟩ ⟨100, 15000000⟩
      rfl rfl rfl rfl rfl rfl
    refine ⟨r, hr, ?_⟩
    rw [harg, hdt]
    norm_num [Time.toSec]

/-- C11 (as stated, refuted): from the constructor's zero-initialised rings, with cached
position (1,0,0), the first call of `estimateWordLinearVelocities` returns (50,0,0) for
`dt = 0.02` and elapsed time 0.5, and (35.7,0,0) for elapsed time 2; neither is (0,0,0). -/
theorem first_estimate_not_zero :
    ∃ s0 : ESTIMATOR ℚ, ESTIMATOR.initRings (ESTIMATOR.sample : ESTIMATOR ℚ) = .ok s0
      ∧ (∃ s1, estimateWordLinearVelocities (eRaptorCallback s0 ⟨⟨1, 0, 0⟩⟩) 0.02 0.5
          = .ok (⟨50, 0, 0⟩, s1))
      ∧ (∃ s1, estimateWordLinearVelocities (eRaptorCallback s0 ⟨⟨1, 0, 0⟩⟩) 0.02 2
          = .ok (⟨35.7, 0, 0⟩, s1))
      ∧ (⟨50, 0, 0⟩ : Vector3d ℚ) ≠ ⟨0, 0, 0⟩ ∧ (⟨35.7, 0, 0⟩ : Vector3d ℚ) ≠ ⟨0, 0, 0⟩ := by
  refine ⟨_, initRings_ok _, ?_, ?_, ?_, ?_⟩
  · rw [estimate_five _ 0.02 0.5 0 0 0 0 0 0 0 0 0 0 0 0 0 0 0 0 0 0 0 0 0 0 0 0 0 0 0 0 0 0
      rfl rfl rfl rfl rfl rfl]
    norm_num [eRaptorCallback, ESTIMATOR.sample]
  · rw [estimate_five _ 0.02 2 0 0 0 0 0 0 0 0 0 0 0 0 0 0 0 0 0 0 0 0 0 0 0 0 0 0 0 0 0 0
      rfl rfl rfl rfl rfl rfl]
    norm_num [eRaptorCallback, ESTIMATOR.sample]
  · intro h
    have := congrArg Vector3d.x h
    norm_num at this
  · intro h
    have := congrArg Vector3d.x h
    norm_num at this

/-- C11 (amended): from the constructor's zero-initialised rings, for every cached
position `p`, every `dt ≠ 0` and every elapsed time, the first call of
`estimateWordLinearVelocities` succeeds and returns on each axis `p / dt` when the elapsed
time is `≤ 1.0` and `35.7 * p` when it is `> 1.0`; the value is (0,0,0) exactly when the
cached position is (0,0,0). -/
theorem first_estimate_value {K : Type} [LinearOrderedField K]
    (s : ESTIMATOR K) (dt delta : K) (hdt : dt ≠ 0) :
    ∃ (s0 : ESTIMATOR K) (v : Vector3d K) (s1 : ESTIMATOR K),
      s.initRings = .ok s0
      ∧ estimateWordLinearVelocities s0 dt delta = .ok (v, s1)
      ∧ v.x = (if delta > 1.0 then 35.7 * s.actual_x else s.actual_x / dt)
      ∧ v.y = (if delta > 1.0 then 35.7 * s.actual_y else s.actual_y / dt)
      ∧ v.z = (if delta > 1.0 then 35.7 * s.actual_z else s.actual_z / dt)
      ∧ (v = ⟨0, 0, 0⟩ ↔ s.actual_x = 0 ∧ s.actual_y = 0 ∧ s.actual_z = 0) := by
  have key : ∀ a : K, (if delta > 1.0 then 35.7 * a else a / dt) = 0 ↔ a = 0 := by
    intro a
    split_ifs
    · constructor
      · intro h
        rcases mul_eq_zero.mp h with h1 | h1
        · norm_num at h1
        · exact h1
      · intro h
        rw [h, mul_zero]
    · rw [div_eq_zero_iff]
      constructor
      · intro h
        rcases h with h | h
        · exact h
        · exact absurd h hdt
      · intro h
        exact Or.inl h
  have he := estimate_five
    { s with
      x_samples := [0, 0, 0, 0, 0], y_samples := [0, 0, 0, 0, 0], z_samples := [0, 0, 0, 0, 0]
      vx_filter_samples := [0, 0, 0, 0, 0], vy_filter_samples := [0, 0, 0, 0, 0]
      vz_filter_samples := [0, 0, 0, 0, 0] }
    dt delta 0 0 0 0 0 0 0 0 0 0 0 0 0 0 0 0 0 0 0 0 0 0 0 0 0 0 0 0 0 0
    rfl rfl rfl rfl rfl rfl
  refine ⟨_, _, _, initRings_ok s, he, ?_, ?_, ?_, ?_⟩
  · simp
  · simp
  · simp
  · rw [Vector3d.ext_iff3]
    simp only [mul_zero, sub_zero, zero_mul, add_zero, zero_add]
    rw [key, key, key]

/-- Witness of C11 (amended) on the sample object with cached position (0,0,0),
`dt = 0.02` and elapsed time 0.5: the first call returns (0,0,0). -/
theorem first_estimate_value_witness :
    ((0.02 : ℚ) ≠ 0)
      ∧ ∃ (s0 : ESTIMATOR ℚ) (s1 : ESTIMATOR ℚ),
        ESTIMATOR.initRings (ESTIMATOR.sample : ESTIMATOR ℚ) = .ok s0
        ∧ estimateWordLinearVelocities s0 0.02 0.5 = .ok (⟨0, 0, 0⟩, s1) := by
  obtain ⟨s0, v, s1, h0, hv, -, -, -, hzero⟩ :=
    first_estimate_value (ESTIMATOR.sample : ESTIMATOR ℚ) 0.02 0.5 (by norm_num)
  refine ⟨by norm_num, s0, s1, h0, ?_⟩
  rw [hv, hzero.mpr ⟨rfl, rfl, rfl⟩]

/-- C12: on every tick (rings of five slots) `predictor` succeeds and leaves all 13 slots
of `x0` written.  `x0[0..2]` is the cached position.  `x0[3..6]` is the (w,x,y,z) of
`q = euler2quatern` of the cached roll, pitch, yaw converted from degrees to radians
(each multiplied by `3.14159265358979323846 / 180`), normalised: every coefficient of `q`
divided by the square root of the sum of the four squares.  `x0[7..9]` is
`rotateLinearVeloE2B` of the quaternion in `x0[3..6]` applied to the world velocity `v` that
the tick's call `estimateWordLinearVelocities(dt, t0)` returns.  `x0[10..12]` is the cached
angular rates.  That `x0` is what the solver receives. -/
theorem predictor_state_vector_layout {K : Type} [LinearOrderedField K] {σ : Type}
    (m : CMath K) (solver : SimSolver σ K) (w : World σ K) (e : TimerEvent) (now : Time)
    (hx : w.est.x_samples.length = 5) (hy : w.est.y_samples.length = 5)
    (hz : w.est.z_samples.length = 5)
    (hvx : w.est.vx_filter_samples.length = 5) (hvy : w.est.vy_filter_samples.length = 5)
    (hvz : w.est.vz_filter_samples.length = 5) :
    ∃ (r : predictorResult σ K) (v : Vector3d K) (q : Quaterniond K),
      predictor m solver w e now = .ok r
      ∧ (∃ s1, estimateWordLinearVelocities
          { w.est with t0 := if e.last_real.isZero then Time.toSec e.current_real else w.est.t0 }
          (Time.toSec e.current_real - Time.toSec e.last_real)
          (if e.last_real.isZero then Time.toSec e.current_real else w.est.t0) = .ok (v, s1))
      ∧ q = euler2quatern m
          ⟨deg2Rad w.est.actual_roll, deg2Rad w.est.actual_pitch, deg2Rad w.est.actual_yaw⟩
      ∧ (deg2Rad w.est.actual_roll = w.est.actual_roll * (3.14159265358979323846 / 180)
        ∧ deg2Rad w.est.actual_pitch = w.est.actual_pitch * (3.14159265358979323846 / 180)
        ∧ deg2Rad w.est.actual_yaw = w.est.actual_yaw * (3.14159265358979323846 / 180))
      ∧ r.world.est.sim_acados_in.x0 0 = w.est.actual_x
      ∧ r.world.est.sim_acados_in.x0 1 = w.est.actual_y
      ∧ r.world.est.sim_acados_in.x0 2 = w.est.actual_z
      ∧ r.world.est.sim_acados_in.x0 3
          = q.w / m.sqrt (q.x * q.x + q.y * q.y + q.z * q.z + q.w * q.w)
      ∧ r.world.est.sim_acados_in.x0 4
          = q.x / m.sqrt (q.x * q.x + q.y * q.y + q.z * q.z + q.w * q.w)
      ∧ r.world.est.sim_acados_in.x0 5
          = q.y / m.sqrt (q.x * q.x + q.y * q.y + q.z * q.z + q.w * q.w)
      ∧ r.world.est.sim_acados_in.x0 6
          = q.z / m.sqrt (q.x * q.x + q.y * q.y + q.z * q.z + q.w * q.w)
      ∧ r.world.est.sim_acados_in.x0 7
          = (rotateLinearVeloE2B
              ⟨r.world.est.sim_acados_in.x0 3, r.world.est.sim_acados_in.x0 4,
                r.world.est.sim_acados_in.x0 5, r.world.est.sim_acados_in.x0 6⟩ v).x
      ∧ r.world.est.sim_acados_in.x0 8
          = (rotateLinearVeloE2B
              ⟨r.world.est.sim_acados_in.x0 3, r.world.est.sim_acados_in.x0 4,
                r.world.est.sim_acados_in.x0 5, r.world.est.sim_acados_in.x0 6⟩ v).y
      ∧ r.world.est.sim_acados_in.x0 9
          = (rotateLinearVeloE2B
              ⟨r.world.est.sim_acados_in.x0 3, r.world.est.sim_acados_in.x0 4,
                r.world.est.sim_acados_in.x0 5, r.world.est.sim_acados_in.x0 6⟩ v).z
      ∧ r.world.est.sim_acados_in.x0 10 = w.est.actual_wx
      ∧ r.world.est.sim_acados_in.x0 11 = w.est.actual_wy
      ∧ r.world.est.sim_acados_in.x0 12 = w.est.actual_wz
      ∧ r.world.sim = (solver.solve (solver.set_u (solver.set_x (solver.set_T w.sim w.est.delay)
            r.world.est.sim_acados_in.x0) r.world.est.sim_acados_in.u0)).2 := by
  obtain ⟨r, v, hr, hv, ⟨p1, p2, p3⟩, ⟨q1, q2, q3, q4⟩, ⟨v1, v2, v3⟩, ⟨w1, w2, w3⟩,
      -, -, -, -, -, -, -, hsim, -⟩ :=
    predictor_frame_of_length m solver w e now hx hy hz hvx hvy hvz
  obtain ⟨r2, -, hr2, -, -, -, -, -, hadt, hdelta, -⟩ :=
    predictor_of_length m solver w e now hx hy hz hvx hvy hvz
  have hrr : r2 = r := by
    have h := hr2.symm.trans hr
    injection h
  subst hrr
  rw [hadt, hdelta] at hv
  have hconv : ∀ d : K, deg2Rad d = d * (3.14159265358979323846 / 180) := by
    intro d
    simp only [deg2Rad, pi]
    norm_num
    ring
  have hq : (euler2quatern m ⟨deg2Rad w.est.actual_roll, deg2Rad w.est.actual_pitch,
      deg2Rad w.est.actual_yaw⟩).normalize m
      = ⟨r2.world.est.sim_acados_in.x0 3, r2.world.est.sim_acados_in.x0 4,
          r2.world.est.sim_acados_in.x0 5, r2.world.est.sim_acados_in.x0 6⟩ := by
    rw [Quaterniond.ext_iff4]
    exact ⟨q1.symm, q2.symm, q3.symm, q4.symm⟩
  rw [hq] at v1 v2 v3
  exact ⟨r2, v, _, hr, hv, rfl, ⟨hconv _, hconv _, hconv _⟩, p1, p2, p3, q1, q2, q3, q4,
    v1, v2, v3, w1, w2, w3, hsim⟩

/-- Witness of C12 at a non-level attitude, with the real `cos`, `sin`, `sqrt`: the sample
object with cached position (1,2,3), angular rates (4,5,6) and a roll message of
`π * 180 / 3.14159265358979323846` degrees (the angle whose conversion to radians is exactly
`π`), on a first tick at 100 s.  The quaternion slots are (0,-1,0,0), the world velocity
35.7 * (1,2,3) is rotated to (35.7, -71.4, -107.1), and `x0` starts 1, 2, 3 and ends
4, 5, 6. -/
theorem predictor_state_vector_layout_witness :
    ∃ r : predictorResult Unit ℝ,
      predictor ⟨Real.cos, Real.sin, Real.sqrt⟩ SimSolver.sample
          ⟨(eulerCallback (imuCallback (eRaptorCallback ESTIMATOR.sample ⟨⟨1, 2, 3⟩⟩)
              ⟨⟨4, 5, 6⟩⟩)
              ⟨⟨0, ⟨0, 0⟩, ""⟩, ⟨Real.pi * 180 / 3.14159265358979323846, 0, 0⟩⟩).1, (), []⟩
          ⟨⟨0, 0⟩, ⟨100, 0⟩⟩ ⟨100, 0⟩ = .ok r
      ∧ (r.world.est.sim_acados_in.x0 0 = 1 ∧ r.world.est.sim_acados_in.x0 1 = 2
        ∧ r.world.est.sim_acados_in.x0 2 = 3)
      ∧ (r.world.est.sim_acados_in.x0 3 = 0 ∧ r.world.est.sim_acados_in.x0 4 = -1
        ∧ r.world.est.sim_acados_in.x0 5 = 0 ∧ r.world.est.sim_acados_in.x0 6 = 0)
      ∧ (r.world.est.sim_acados_in.x0 7 = 35.7 ∧ r.world.est.sim_acados_in.x0 8 = -71.4
        ∧ r.world.est.sim_acados_in.x0 9 = -107.1)
      ∧ (r.world.est.sim_acados_in.x0 10 = 4 ∧ r.world.est.sim_acados_in.x0 11 = 5
        ∧ r.world.est.sim_acados_in.x0 12 = 6) := by
  obtain ⟨r, v, q, hr, ⟨s1, hv⟩, hq, ⟨c1, c2, c3⟩, p1, p2, p3, q1, q2, q3, q4, v1, v2, v3,
      w1, w2, w3, -⟩ :=
    predictor_state_vector_layout ⟨Real.cos, Real.sin, Real.sqrt⟩ SimSolver.sample
      ⟨(eulerCallback (imuCallback (eRaptorCallback (ESTIMATOR.sample : ESTIMATOR ℝ)
          ⟨⟨1, 2, 3⟩⟩) ⟨⟨4, 5, 6⟩⟩)
          ⟨⟨0, ⟨0, 0⟩, ""⟩, ⟨Real.pi * 180 / 3.14159265358979323846, 0, 0⟩⟩).1, (), []⟩
      ⟨⟨0, 0⟩, ⟨100, 0⟩⟩ ⟨100, 0⟩ rfl rfl rfl rfl rfl rfl
  -- the converted angles
  have hroll : deg2Rad ((eulerCallback (imuCallback (eRaptorCallback
      (ESTIMATOR.sample : ESTIMATOR ℝ) ⟨⟨1, 2, 3⟩⟩) ⟨⟨4, 5, 6⟩⟩)
      ⟨⟨0, ⟨0, 0⟩, ""⟩, ⟨Real.pi * 180 / 3.14159265358979323846, 0, 0⟩⟩).1.actual_roll)
      = Real.pi := by
    rw [c1]
    simp only [eulerCallback]
    norm_num
    field_simp
    ring
  have hpitch : deg2Rad ((eulerCallback (imuCallback (eRaptorCallback
      (ESTIMATOR.sample : ESTIMATOR ℝ) ⟨⟨1, 2, 3⟩⟩) ⟨⟨4, 5, 6⟩⟩)
      ⟨⟨0, ⟨0, 0⟩, ""⟩, ⟨Real.pi * 180 / 3.14159265358979323846, 0, 0⟩⟩).1.actual_pitch)
      = 0 := by
    rw [c2]
    simp only [eulerCallback]
    norm_num
  have hyaw : deg2Rad ((eulerCallback (imuCallback (eRaptorCallback
      (ESTIMATOR.sample : ESTIMATOR ℝ) ⟨⟨1, 2, 3⟩⟩) ⟨⟨4, 5, 6⟩⟩)
      ⟨⟨0, ⟨0, 0⟩, ""⟩, ⟨Real.pi * 180 / 3.14159265358979323846, 0, 0⟩⟩).1.actual_yaw)
      = 0 := by
    rw [c3]
    simp only [eulerCallback]
    norm_num
  -- the quaternion
  have hpi : Real.pi * 0.5 = Real.pi / 2 := by norm_num [div_eq_mul_inv]
  have hc : Real.cos (Real.pi * 0.5) = 0 := by rw [hpi]; exact Real.cos_pi_div_two
  have hs : Real.sin (Real.pi * 0.5) = 1 := by rw [hpi]; exact Real.sin_pi_div_two
  have hqv : q = ⟨0, -1, 0, 0⟩ := by
    rw [hq]
    dsimp only
    rw [hroll, hpitch, hyaw]
    simp [euler2quatern, hc, hs]
  subst hqv
  have hn : Real.sqrt ((-1 : ℝ) * (-1) + 0 * 0 + 0 * 0 + 0 * 0) = 1 := by norm_num
  simp only [hn] at q1 q2 q3 q4
  norm_num at q1 q2 q3 q4
  -- the world velocity of the tick
  have he := estimate_five
    { (eulerCallback (imuCallback (eRaptorCallback (ESTIMATOR.sample : ESTIMATOR ℝ)
        ⟨⟨1, 2, 3⟩⟩) ⟨⟨4, 5, 6⟩⟩)
        ⟨⟨0, ⟨0, 0⟩, ""⟩, ⟨Real.pi * 180 / 3.14159265358979323846, 0, 0⟩⟩).1 with
      t0 := if Time.isZero (⟨0, 0⟩ : Time) then Time.toSec (⟨100, 0⟩ : Time) else
        (eulerCallback (imuCallback (eRaptorCallback (ESTIMATOR.sample : ESTIMATOR ℝ)
          ⟨⟨1, 2, 3⟩⟩) ⟨⟨4, 5, 6⟩⟩)
          ⟨⟨0, ⟨0, 0⟩, ""⟩, ⟨Real.pi * 180 / 3.14159265358979323846, 0, 0⟩⟩).1.t0 }
    (Time.toSec (⟨100, 0⟩ : Time) - Time.toSec (⟨0, 0⟩ : Time))
    (if Time.isZero (⟨0, 0⟩ : Time) then Time.toSec (⟨100, 0⟩ : Time) else
        (eulerCallback (imuCallback (eRaptorCallback (ESTIMATOR.sample : ESTIMATOR ℝ)
          ⟨⟨1, 2, 3⟩⟩) ⟨⟨4, 5, 6⟩⟩)
          ⟨⟨0, ⟨0, 0⟩, ""⟩, ⟨Real.pi * 180 / 3.14159265358979323846, 0, 0⟩⟩).1.t0)
    0 0 0 0 0 0 0 0 0 0 0 0 0 0 0 0 0 0 0 0 0 0 0 0 0 0 0 0 0 0 rfl rfl rfl rfl rfl rfl
  dsimp only at hv
  rw [he] at hv
  have hvec := (Prod.mk.inj (Except.ok.inj hv)).1
  have hvv : v = ⟨35.7, 71.4, 107.1⟩ := by
    rw [← hvec, Vector3d.ext_iff3]
    simp only [eulerCallback, imuCallback, eRaptorCallback, Time.isZero, Time.toSec]
    norm_num
  subst hvv
  rw [q1, q2, q3, q4] at v1 v2 v3
  simp only [rotateLinearVeloE2B] at v1 v2 v3
  norm_num at v1 v2 v3
  refine ⟨r, hr, ⟨p1, p2, p3⟩, ⟨q1, q2, q3, q4⟩, ⟨?_, ?_, ?_⟩, ⟨w1, w2, w3⟩⟩
  · rw [v1]; norm_num
  · rw [v2]; norm_num
  · rw [v3]; norm_num

/-- C13 (as stated, refuted): a tick with a solver that reports status 7 and the same tick
with a solver that reports status 0 publish the same record, while the object stores 7
and 0: the published record does not carry the status. -/
theorem published_record_independent_of_status :
    ∃ r0 r7 : predictorResult Unit ℚ,
      predictor ⟨fun _ => 1, fun _ => 0, fun _ => 1⟩ SimSolver.sample
          ⟨ESTIMATOR.sample, (), []⟩ ⟨⟨0, 0⟩, ⟨100, 0⟩⟩ ⟨100, 0⟩ = .ok r0
      ∧ predictor ⟨fun _ => 1, fun _ => 0, fun _ => 1⟩
          { (SimSolver.sample : SimSolver Unit ℚ) with solve := fun _ => (7, ()) }
          ⟨ESTIMATOR.sample, (), []⟩ ⟨⟨0, 0⟩, ⟨100, 0⟩⟩ ⟨100, 0⟩ = .ok r7
      ∧ r0.world.est.sim_acados_status = 0
      ∧ r7.world.est.sim_acados_status = 7
      ∧ r7.world.state_pub = r0.world.state_pub := by
  obtain ⟨r0, -, h0, -, -, -, -, -, -, -, -, -, -, -, -, -, st0, -, -, pub0⟩ :=
    predictor_frame_of_length (⟨fun _ => 1, fun _ => 0, fun _ => 1⟩ : CMath ℚ)
      SimSolver.sample ⟨ESTIMATOR.sample, (), []⟩ ⟨⟨0, 0⟩, ⟨100, 0⟩⟩ ⟨100, 0⟩
      rfl rfl rfl rfl rfl rfl
  obtain ⟨r7, -, h7, -, -, -, -, -, -, -, -, -, -, -, -, -, st7, -, -, pub7⟩ :=
    predictor_frame_of_length (⟨fun _ => 1, fun _ => 0, fun _ => 1⟩ : CMath ℚ)
      { (SimSolver.sample : SimSolver Unit ℚ) with solve := fun _ => (7, ()) }
      ⟨ESTIMATOR.sample, (), []⟩ ⟨⟨0, 0⟩, ⟨100, 0⟩⟩ ⟨100, 0⟩
      rfl rfl rfl rfl rfl rfl
  refine ⟨r0, r7, h0, h7, st0, st7, ?_⟩
  rw [pub0, pub7]

/-- C13 (amended): on every tick (rings of five slots), whatever status the external
solver returns, `predictor` succeeds and publishes exactly one state-estimate record; the
record carries the time stamp and the thirteen values of the solver's `xn`, and no status;
the status is stored unchanged in `sim_acados_status` and `sim_acados_out.status` of the
object. -/
theorem predictor_publishes_one_record {K : Type} [LinearOrderedField K] {σ : Type}
    (m : CMath K) (solver : SimSolver σ K) (w : World σ K) (e : TimerEvent) (now : Time)
    (hx : w.est.x_samples.length = 5) (hy : w.est.y_samples.length = 5)
    (hz : w.est.z_samples.length = 5)
    (hvx : w.est.vx_filter_samples.length = 5) (hvy : w.est.vy_filter_samples.length = 5)
    (hvz : w.est.vz_filter_samples.length = 5) :
    ∃ r : predictorResult σ K,
      predictor m solver w e now = .ok r
      ∧ r.world.state_pub = w.state_pub ++
          [{ stamp := now
             pos := ⟨solver.get_xn r.world.sim 0, solver.get_xn r.world.sim 1,
               solver.get_xn r.world.sim 2⟩
             vel := ⟨solver.get_xn r.world.sim 7, solver.get_xn r.world.sim 8,
               solver.get_xn r.world.sim 9⟩
             quat := ⟨solver.get_xn r.world.sim 3, solver.get_xn r.world.sim 4,
               solver.get_xn r.world.sim 5, solver.get_xn r.world.sim 6⟩
             rates := ⟨solver.get_xn r.world.sim 10, solver.get_xn r.world.sim 11,
               solver.get_xn r.world.sim 12⟩ }]
      ∧ r.world.state_pub.length = w.state_pub.length + 1
      ∧ r.world.est.sim_acados_status
          = (solver.solve (solver.set_u (solver.set_x (solver.set_T w.sim w.est.delay)
            r.world.est.sim_acados_in.x0) r.world.est.sim_acados_in.u0)).1
      ∧ r.world.est.sim_acados_out.status = (r.world.est.sim_acados_status : K) := by
  obtain ⟨r, -, hr, -, -, -, -, -, -, -, -, -, -, -, -, -, hst, hout, -, hpub⟩ :=
    predictor_frame_of_length m solver w e now hx hy hz hvx hvy hvz
  refine ⟨r, hr, hpub, ?_, hst, hout⟩
  rw [hpub]
  simp

/-- Witness of C13 (amended): with a solver that reports status 7 the tick publishes one
record and the object stores 7. -/
theorem predictor_publishes_one_record_witness :
    ∃ r : predictorResult Unit ℚ,
      predictor ⟨fun _ => 1, fun _ => 0, fun _ => 1⟩
          { (SimSolver.sample : SimSolver Unit ℚ) with solve := fun _ => (7, ()) }
          ⟨ESTIMATOR.sample, (), []⟩ ⟨⟨0, 0⟩, ⟨100, 0⟩⟩ ⟨100, 0⟩ = .ok r
      ∧ r.world.state_pub.length = 1
      ∧ r.world.est.sim_acados_status = 7
      ∧ r.world.est.sim_acados_out.status = 7 := by
  obtain ⟨r, hr, -, hlen, hst, hout⟩ := predictor_publishes_one_record
    (⟨fun _ => 1, fun _ => 0, fun _ => 1⟩ : CMath ℚ)
    { (SimSolver.sample : SimSolver Unit ℚ) with solve := fun _ => (7, ()) }
    ⟨ESTIMATOR.sample, (), []⟩ ⟨⟨0, 0⟩, ⟨100, 0⟩⟩ ⟨100, 0⟩ rfl rfl rfl rfl rfl rfl
  have h7 : r.world.est.sim_acados_status = 7 := hst
  refine ⟨r, hr, hlen, h7, ?_⟩
  rw [hout, h7]
  norm_num

/-- C14: constructing the estimator ends in `exit(1)` with no publisher or subscriber set
up (and no object on which a tick could run) if and only if the solver's one-time setup
call `crazyflie_acados_sim_create` returns a non-zero status; the constructor has no other
exit. -/
theorem ctor_exits_iff_create_fails {K : Type} [LinearOrderedField K] {σ : Type}
    (create : σ → Int × σ) (s : ESTIMATOR K) (sim : σ) :
    (ESTIMATOR.ctor create s sim = .exited 1 [] ↔ (create sim).1 ≠ 0)
      ∧ (∀ code setup, ESTIMATOR.ctor create s sim = .exited code setup →
          code = 1 ∧ setup = [] ∧ (create sim).1 ≠ 0) := by
  rcases ctor_cases create s sim with ⟨h, hc⟩ | ⟨h, hc⟩
  · refine ⟨⟨fun _ => h, fun _ => hc⟩, ?_⟩
    intro code setup he
    rw [hc] at he
    injection he with h1 h2
    exact ⟨h1.symm, h2.symm, h⟩
  · refine ⟨⟨?_, fun hne => absurd h hne⟩, ?_⟩
    · intro he
      rw [hc] at he
      exact Constructed.noConfusion he
    · intro code setup he
      rw [hc] at he
      exact Constructed.noConfusion he

/-- Witness of C14: with a setup call that reports status 3 the constructor exits with
code 1 and nothing set up; with one that reports status 0 it does not exit. -/
theorem ctor_exits_iff_create_fails_witness :
    ESTIMATOR.ctor (fun u : Unit => ((3 : Int), u)) (ESTIMATOR.sample : ESTIMATOR ℚ) ()
        = .exited 1 []
      ∧ ESTIMATOR.ctor (fun u : Unit => ((0 : Int), u)) (ESTIMATOR.sample : ESTIMATOR ℚ) ()
        ≠ .exited 1 [] := by
  constructor
  · exact (ctor_exits_iff_create_fails (fun u : Unit => ((3 : Int), u))
      (ESTIMATOR.sample : ESTIMATOR ℚ) ()).1.mpr (by decide)
  · intro h
    exact (ctor_exits_iff_create_fails (fun u : Unit => ((0 : Int), u))
      (ESTIMATOR.sample : ESTIMATOR ℚ) ()).1.mp h rfl

/-- C15: for every motor-speed message, after `motorsCallback` the four latest values
are the message's `w1..w4` (converted to the cache's `int32_t`) and the four prelatest values
are the latest values held before the call; after two consecutive messages the cache holds
the last message as latest and the one before it as prelatest. -/
theorem motorsCallback_two_deep {K : Type} [LinearOrderedField K] {W : Type}
    (toInt32 : W → Int) (s : ESTIMATOR K) (msg1 msg2 : PropellerSpeedsStamped W) :
    ((motorsCallback toInt32 s msg1).acados_w1_latest = toInt32 msg1.w1
        ∧ (motorsCallback toInt32 s msg1).acados_w2_latest = toInt32 msg1.w2
        ∧ (motorsCallback toInt32 s msg1).acados_w3_latest = toInt32 msg1.w3
        ∧ (motorsCallback toInt32 s msg1).acados_w4_latest = toInt32 msg1.w4)
      ∧ ((motorsCallback toInt32 s msg1).acados_w1_prelatest = s.acados_w1_latest
        ∧ (motorsCallback toInt32 s msg1).acados_w2_prelatest = s.acados_w2_latest
        ∧ (motorsCallback toInt32 s msg1).acados_w3_prelatest = s.acados_w3_latest
        ∧ (motorsCallback toInt32 s msg1).acados_w4_prelatest = s.acados_w4_latest)
      ∧ ((motorsCallback toInt32 (motorsCallback toInt32 s msg1) msg2).acados_w1_latest
          = toInt32 msg2.w1
        ∧ (motorsCallback toInt32 (motorsCallback toInt32 s msg1) msg2).acados_w2_latest
          = toInt32 msg2.w2
        ∧ (motorsCallback toInt32 (motorsCallback toInt32 s msg1) msg2).acados_w3_latest
          = toInt32 msg2.w3
        ∧ (motorsCallback toInt32 (motorsCallback toInt32 s msg1) msg2).acados_w4_latest
          = toInt32 msg2.w4)
      ∧ ((motorsCallback toInt32 (motorsCallback toInt32 s msg1) msg2).acados_w1_prelatest
          = toInt32 msg1.w1
        ∧ (motorsCallback toInt32 (motorsCallback toInt32 s msg1) msg2).acados_w2_prelatest
          = toInt32 msg1.w2
        ∧ (motorsCallback toInt32 (motorsCallback toInt32 s msg1) msg2).acados_w3_prelatest
          = toInt32 msg1.w3
        ∧ (motorsCallback toInt32 (motorsCallback toInt32 s msg1) msg2).acados_w4_prelatest
          = toInt32 msg1.w4) :=
  ⟨⟨rfl, rfl, rfl, rfl⟩, ⟨rfl, rfl, rfl, rfl⟩, ⟨rfl, rfl, rfl, rfl⟩, ⟨rfl, rfl, rfl, rfl⟩⟩

/-- C16: a tick of `predictor` (rings of five slots) succeeds and leaves every latest-value
cache unchanged: cached position, euler angles, angular rates and both levels of the
motor-speed history; a second tick with no handler call in between succeeds too and writes
the same position, attitude, angular-rate and control values into `x0` and `u0`. -/
theorem predictor_preserves_caches {K : Type} [LinearOrderedField K] {σ : Type}
    (m : CMath K) (solver : SimSolver σ K) (w : World σ K) (e e2 : TimerEvent)
    (now now2 : Time)
    (hx : w.est.x_samples.length = 5) (hy : w.est.y_samples.length = 5)
    (hz : w.est.z_samples.length = 5)
    (hvx : w.est.vx_filter_samples.length = 5) (hvy : w.est.vy_filter_samples.length = 5)
    (hvz : w.est.vz_filter_samples.length = 5) :
    ∃ r r2 : predictorResult σ K,
      predictor m solver w e now = .ok r
      ∧ (r.world.est.actual_x = w.est.actual_x ∧ r.world.est.actual_y = w.est.actual_y
        ∧ r.world.est.actual_z = w.est.actual_z)
      ∧ (r.world.est.actual_roll = w.est.actual_roll
        ∧ r.world.est.actual_pitch = w.est.actual_pitch
        ∧ r.world.est.actual_yaw = w.est.actual_yaw)
      ∧ (r.world.est.actual_wx = w.est.actual_wx ∧ r.world.est.actual_wy = w.est.actual_wy
        ∧ r.world.est.actual_wz = w.est.actual_wz)
      ∧ (r.world.est.acados_w1_latest = w.est.acados_w1_latest
        ∧ r.world.est.acados_w2_latest = w.est.acados_w2_latest
        ∧ r.world.est.acados_w3_latest = w.est.acados_w3_latest
        ∧ r.world.est.acados_w4_latest = w.est.acados_w4_latest)
      ∧ (r.world.est.acados_w1_prelatest = w.est.acados_w1_prelatest
        ∧ r.world.est.acados_w2_prelatest = w.est.acados_w2_prelatest
        ∧ r.world.est.acados_w3_prelatest = w.est.acados_w3_prelatest
        ∧ r.world.est.acados_w4_prelatest = w.est.acados_w4_prelatest)
      ∧ predictor m solver r.world e2 now2 = .ok r2
      ∧ (∀ i : Fin NX, i ≠ 7 → i ≠ 8 → i ≠ 9 →
          r2.world.est.sim_acados_in.x0 i = r.world.est.sim_acados_in.x0 i)
      ∧ (∀ j : Fin NU, r2.world.est.sim_acados_in.u0 j = r.world.est.sim_acados_in.u0 j) := by
  obtain ⟨r, -, hr, -, ⟨p1, p2, p3⟩, ⟨q1, q2, q3, q4⟩, -, ⟨w1, w2, w3⟩, ⟨u1, u2, u3, u4⟩,
      ⟨cx, cy, cz⟩, ⟨croll, cpitch, cyaw⟩, ⟨cwx, cwy, cwz⟩, ⟨l1, l2, l3, l4⟩,
      ⟨pl1, pl2, pl3, pl4⟩, ⟨n1, n2, n3, n4, n5, n6⟩, -⟩ :=
    predictor_frame_of_length m solver w e now hx hy hz hvx hvy hvz
  obtain ⟨r2, -, hr2, -, ⟨p1', p2', p3'⟩, ⟨q1', q2', q3', q4'⟩, -, ⟨w1', w2', w3'⟩,
      ⟨u1', u2', u3', u4'⟩, -⟩ :=
    predictor_frame_of_length m solver r.world e2 now2 n1 n2 n3 n4 n5 n6
  refine ⟨r, r2, hr, ⟨cx, cy, cz⟩, ⟨croll, cpitch, cyaw⟩, ⟨cwx, cwy, cwz⟩, ⟨l1, l2, l3, l4⟩,
    ⟨pl1, pl2, pl3, pl4⟩, hr2, ?_, ?_⟩
  · intro i h7 h8 h9
    rw [croll, cpitch, cyaw] at q1' q2' q3' q4'
    fin_cases i
    · exact p1'.trans (cx.trans p1.symm)
    · exact p2'.trans (cy.trans p2.symm)
    · exact p3'.trans (cz.trans p3.symm)
    · exact q1'.trans q1.symm
    · exact q2'.trans q2.symm
    · exact q3'.trans q3.symm
    · exact q4'.trans q4.symm
    · exact absurd rfl h7
    · exact absurd rfl h8
    · exact absurd rfl h9
    · exact w1'.trans (cwx.trans w1.symm)
    · exact w2'.trans (cwy.trans w2.symm)
    · exact w3'.trans (cwz.trans w3.symm)
  · intro j
    fin_cases j
    · exact u1'.trans ((congrArg _ l1).trans u1.symm)
    · exact u2'.trans ((congrArg _ l2).trans u2.symm)
    · exact u3'.trans ((congrArg _ l3).trans u3.symm)
    · exact u4'.trans ((congrArg _ l4).trans u4.symm)

/-- Witness of C16: two ticks on the sample object with cached position (1,2,3) and
angular rates (4,5,6); after the first tick the cached position is still (1,2,3). -/
theorem predictor_preserves_caches_witness :
    ∃ r r2 : predictorResult Unit ℚ,
      predictor ⟨fun _ => 1, fun _ => 0, fun _ => 1⟩ SimSolver.sample
          ⟨imuCallback (eRaptorCallback ESTIMATOR.sample ⟨⟨1, 2, 3⟩⟩) ⟨⟨4, 5, 6⟩⟩, (), []⟩
          ⟨⟨0, 0⟩, ⟨100, 0⟩⟩ ⟨100, 0⟩ = .ok r
      ∧ (r.world.est.actual_x = 1 ∧ r.world.est.actual_y = 2 ∧ r.world.est.actual_z = 3)
      ∧ (r.world.est.actual_wx = 4 ∧ r.world.est.actual_wy = 5 ∧ r.world.est.actual_wz = 6)
      ∧ predictor ⟨fun _ => 1, fun _ => 0, fun _ => 1⟩ SimSolver.sample r.world
          ⟨⟨100, 0⟩, ⟨100, 15000000⟩⟩ ⟨100, 15000000⟩ = .ok r2
      ∧ r2.world.est.sim_acados_in.x0 0 = r.world.est.sim_acados_in.x0 0 := by
  obtain ⟨r, r2, hr, hpos, -, hrate, -, -, hr2, hx0, -⟩ := predictor_preserves_caches
    (⟨fun _ => 1, fun _ => 0, fun _ => 1⟩ : CMath ℚ) SimSolver.sample
    ⟨imuCallback (eRaptorCallback (ESTIMATOR.sample : ESTIMATOR ℚ) ⟨⟨1, 2, 3⟩⟩) ⟨⟨4, 5, 6⟩⟩,
      (), []⟩
    ⟨⟨0, 0⟩, ⟨100, 0⟩⟩ ⟨⟨100, 0⟩, ⟨100, 15000000⟩⟩ ⟨100, 0⟩ ⟨100, 15000000⟩
    rfl rfl rfl rfl rfl rfl
  exact ⟨r, r2, hr, hpos, hrate, hr2, hx0 0 (by decide) (by decide) (by decide)⟩

/-- C17: for every state of the five-slot rings, one call of
`estimateWordLinearVelocities` succeeds; afterwards each position ring still has 5 slots
and is its previous slots 1..4 followed by the cached position of its axis, and each
filtered-velocity ring still has 5 slots and is its previous slots 1..4 followed by the
value returned for its axis. -/
theorem estimate_rings_shift {K : Type} [LinearOrderedField K]
    (s : ESTIMATOR K) (dt delta : K)
    (hx : s.x_samples.length = 5) (hy : s.y_samples.length = 5) (hz : s.z_samples.length = 5)
    (hvx : s.vx_filter_samples.length = 5) (hvy : s.vy_filter_samples.length = 5)
    (hvz : s.vz_filter_samples.length = 5) :
    ∃ (v : Vector3d K) (s1 : ESTIMATOR K),
      estimateWordLinearVelocities s dt delta = .ok (v, s1)
      ∧ (s1.x_samples.length = 5 ∧ s1.x_samples = s.x_samples.drop 1 ++ [s.actual_x])
      ∧ (s1.y_samples.length = 5 ∧ s1.y_samples = s.y_samples.drop 1 ++ [s.actual_y])
      ∧ (s1.z_samples.length = 5 ∧ s1.z_samples = s.z_samples.drop 1 ++ [s.actual_z])
      ∧ (s1.vx_filter_samples.length = 5
          ∧ s1.vx_filter_samples = s.vx_filter_samples.drop 1 ++ [v.x])
      ∧ (s1.vy_filter_samples.length = 5
          ∧ s1.vy_filter_samples = s.vy_filter_samples.drop 1 ++ [v.y])
      ∧ (s1.vz_filter_samples.length = 5
          ∧ s1.vz_filter_samples = s.vz_filter_samples.drop 1 ++ [v.z]) := by
  obtain ⟨v, hv, -, -, -⟩ := estimate_of_length s dt delta hx hy hz hvx hvy hvz
  refine ⟨v, _, hv, ⟨?_, rfl⟩, ⟨?_, rfl⟩, ⟨?_, rfl⟩, ⟨?_, rfl⟩, ⟨?_, rfl⟩, ⟨?_, rfl⟩⟩
  · simp [hx]
  · simp [hy]
  · simp [hz]
  · simp [hvx]
  · simp [hvy]
  · simp [hvz]

/-- Witness of C17: position ring `1, 2, 3, 4, 5` with cached x position 6 becomes
`2, 3, 4, 5, 6`, and the filtered-velocity ring `10, 20, 30, 40, 50` becomes
`20, 30, 40, 50` followed by the returned value `(6 - 5) / 0.02 = 50`. -/
theorem estimate_rings_shift_witness :
    ∃ (v : Vector3d ℚ) (s1 : ESTIMATOR ℚ),
      estimateWordLinearVelocities
          { (ESTIMATOR.sample : ESTIMATOR ℚ) with
            x_samples := [1, 2, 3, 4, 5], vx_filter_samples := [10, 20, 30, 40, 50]
            actual_x := 6 } 0.02 0.5 = .ok (v, s1)
      ∧ s1.x_samples = [2, 3, 4, 5, 6]
      ∧ s1.vx_filter_samples = [20, 30, 40, 50, v.x] := by
  obtain ⟨v, s1, hv, ⟨-, hx⟩, -, -, ⟨-, hvx⟩, -, -⟩ := estimate_rings_shift
    { (ESTIMATOR.sample : ESTIMATOR ℚ) with
      x_samples := [1, 2, 3, 4, 5], vx_filter_samples := [10, 20, 30, 40, 50]
      actual_x := 6 } 0.02 0.5 rfl rfl rfl rfl rfl rfl
  exact ⟨v, s1, hv, hx, hvx⟩

/-- C18 (as stated, refuted): for the euler-angle message with vector (0, 1, 0) the cached
pitch after `eulerCallback` is -1, not the received field 1. -/
theorem eulerCallback_pitch_not_copied :
    (eulerCallback (ESTIMATOR.sample : ESTIMATOR ℚ)
        ⟨⟨0, ⟨0, 0⟩, ""⟩, ⟨0, 1, 0⟩⟩).1.actual_pitch = -1
      ∧ (eulerCallback (ESTIMATOR.sample : ESTIMATOR ℚ)
        ⟨⟨0, ⟨0, 0⟩, ""⟩, ⟨0, 1, 0⟩⟩).1.actual_pitch ≠ 1 := by
  have h : (eulerCallback (ESTIMATOR.sample : ESTIMATOR ℚ)
      ⟨⟨0, ⟨0, 0⟩, ""⟩, ⟨0, 1, 0⟩⟩).1.actual_pitch = -1 := rfl
  refine ⟨h, ?_⟩
  rw [h]
  norm_num

/-- C18 (amended): for every euler-angle message with vector (x, y, z), after
`eulerCallback` the cached roll is x, the cached pitch is -y and the cached yaw is z; the
message it publishes carries the same three values and the header of the received one. -/
theorem eulerCallback_cache {K : Type} [LinearOrderedField K]
    (s : ESTIMATOR K) (msg : Vector3Stamped K) :
    (eulerCallback s msg).1.actual_roll = msg.vector.x
      ∧ (eulerCallback s msg).1.actual_pitch = -msg.vector.y
      ∧ (eulerCallback s msg).1.actual_yaw = msg.vector.z
      ∧ (eulerCallback s msg).2
          = { header := msg.header, roll := msg.vector.x, pitch := -msg.vector.y
              yaw := msg.vector.z } :=
  ⟨rfl, rfl, rfl, rfl⟩

/-- C19 (the code on every object): in the constructor the loops over the six rings
(indices 0..4) and over `u0`, `u1` (indices 0..3) stay in bounds, and so do the writes
`y[0]` .. `y[19]`; but the loop `for (i = 0; i <= MAX_ORDER; i++) y[i] = 0.0` also writes
`y[20]` into the 20-element `y`, which is out of bounds, so the buffer initialisation, and
with it the constructor after a successful solver setup, leaves defined behaviour. -/
theorem ctor_y_loop_out_of_bounds {K : Type} [LinearOrderedField K] {σ : Type}
    (s : ESTIMATOR K) (sim : σ) :
    (∃ s0, s.memberInit.initRings = .ok s0)
      ∧ (∃ a, arrayZeroLoop s.memberInit.sim_acados_in.u0 NU = .ok a)
      ∧ (∃ a, arrayZeroLoop s.memberInit.sim_acados_in.u1 NU = .ok a)
      ∧ s.memberInit.MAX_ORDER.toNat = 20
      ∧ (vresize s.memberInit.y s.memberInit.MAX_ORDER.toNat).length = 20
      ∧ (∃ y, zeroLoop (vresize s.memberInit.y s.memberInit.MAX_ORDER.toNat) 19 = .ok y)
      ∧ zeroLoop (vresize s.memberInit.y s.memberInit.MAX_ORDER.toNat)
          s.memberInit.MAX_ORDER.toNat = .error .outOfBounds
      ∧ s.memberInit.initBuffers = .error .outOfBounds
      ∧ ESTIMATOR.ctor (fun x : σ => ((0 : Int), x)) s sim = .undefined .outOfBounds
          [RosSetup.advertise "/cf_estimator/state_estimate" 1,
            RosSetup.advertise "/cf_estimator/euler_angles" 5,
            RosSetup.subscribe "/crazyflie/external_position" 5,
            RosSetup.subscribe "/crazyflie/imu" 5,
            RosSetup.subscribe "/crazyflie/euler_angles" 5,
            RosSetup.subscribe "/crazyflie/acados_motvel" 5] := by
  have hlen : (vresize s.memberInit.y s.memberInit.MAX_ORDER.toNat).length = 20 :=
    vresize_length _ _
  refine ⟨⟨_, initRings_ok _⟩, arrayZeroLoop_NU _, arrayZeroLoop_NU _, rfl, hlen, ?_,
    zeroLoop_overrun _ _ (vresize_length _ _), initBuffers_fault s, ?_⟩
  · obtain ⟨y, hy, -⟩ := zeroLoop_prefix
      (vresize s.memberInit.y s.memberInit.MAX_ORDER.toNat) 20 (le_of_eq hlen.symm)
    exact ⟨y, hy⟩
  · rcases ctor_cases (fun x : σ => ((0 : Int), x)) s sim with ⟨h, -⟩ | ⟨-, hc⟩
    · exact absurd rfl h
    · exact hc

/-- C20: for every quaternion `q` (unit or not) and every vector `v`,
`rotateLinearVeloE2B (-q) v = rotateLinearVeloE2B q v`; hence the sign canonicalisation in
`euler2quatern` does not change the rotated vector, neither directly nor after the
`normalize` that `predictor` applies. -/
theorem rotateLinearVeloE2B_neg_invariant {K : Type} [LinearOrderedField K]
    (m : CMath K) (q : Quaterniond K) (angle : euler K) (v : Vector3d K) :
    rotateLinearVeloE2B q.neg v = rotateLinearVeloE2B q v
      ∧ rotateLinearVeloE2B (euler2quatern m angle) v
          = rotateLinearVeloE2B (euler2quaternRaw m angle) v
      ∧ rotateLinearVeloE2B ((euler2quatern m angle).normalize m) v
          = rotateLinearVeloE2B ((euler2quaternRaw m angle).normalize m) v := by
  refine ⟨rotate_neg q v, ?_, ?_⟩
  · rw [euler2quatern_eq_raw_or_neg]
    split_ifs
    · exact rotate_neg _ v
    · rfl
  · rw [euler2quatern_eq_raw_or_neg]
    split_ifs
    · rw [normalize_neg, rotate_neg]
    · rfl

end Crazyflie
